import Mathlib

/-!
# Verification of the `Json_flex` histogram (sql/histograms/json_flex.{h,cc})

A shallow embedding of the JSON-aware column histogram: the data model
(`JsonBucket`, `JsonGram`), the canonical key-path encoder
(`build_histogram_query_string`), bucket lookup (`lookup_bucket` and its typed
specialisations), the selectivity getters, the multi-comparand dispatch
(`multi_val_dispatch`), and the JSON (de)serialisation of the bucket array
(`json_to_histogram` / `histogram_to_json`).

Modelling conventions:
* C++ `double` is modelled as `ℚ` (exact arithmetic; decimal literals such as
  `0.1` denote the exact rationals the source writes).
* MySQL `String` values and the collation-aware `stringcmp` are modelled as
  Lean `String` with lexicographic comparison (binary collation).
* The C++ `json_primitive` is an untagged union read through `._int`,
  `._float`, `._bool`, `._string`; it is modelled as the tagged `JsonPrim`.
  A read of a member that does not match the stored tag reinterpets raw bytes
  in the source (unspecified); the accessors below return a fixed default in
  that case, and every theorem that touches min/max values carries typing
  hypotheses that keep it on tag-correct reads.
* `assert(...)` is compiled out in release builds; where control flow continues
  past a failed assertion the embedding follows the release control flow and
  says so in a comment.
-/

namespace JsonFlex

/-- Result record of a bucket lookup (`Json_flex::lookup_result`). -/
structure lookup_result where
  eq_frequency : ℚ
  lt_frequency : ℚ
  gt_frequency : ℚ
  deriving DecidableEq, Repr

/-- `enum class BucketValueType` from json_flex.h. -/
inductive BucketValueType where
  | UNKNOWN | INT | FLOAT | STRING | BOOL
  deriving DecidableEq, Repr

/-- The tagged model of the untagged C++ union `json_primitive`. -/
inductive JsonPrim where
  | pInt (i : ℤ)
  | pFloat (q : ℚ)
  | pBool (b : Bool)
  | pString (s : String)
  deriving DecidableEq, Repr

/-- Read of `._int`; default 0 on a tag mismatch (raw-byte reinterpretation
in the source, unspecified). -/
def JsonPrim.getInt : JsonPrim → ℤ
  | .pInt i => i
  | _ => 0

/-- Read of `._float`; default 0 on a tag mismatch. -/
def JsonPrim.getFloat : JsonPrim → ℚ
  | .pFloat q => q
  | _ => 0

/-- Read of `._bool`; default `false` on a tag mismatch. -/
def JsonPrim.getBool : JsonPrim → Bool
  | .pBool b => b
  | _ => false

/-- Read of `._string` (as a Lean string); default `""` on a tag mismatch. -/
def JsonPrim.getStr : JsonPrim → String
  | .pString s => s
  | _ => ""

/-- One entry of a singleton sub-histogram (`JsonGram<T>::SingleBucket`). -/
structure SingleBucket (T : Type) where
  value : T
  frequency : ℚ
  deriving DecidableEq, Repr

/-- One entry of an equi-height sub-histogram (`JsonGram<T>::EquiBucket`). -/
structure EquiBucket (T : Type) where
  upper_bound : T
  frequency : ℚ
  ndv : ℤ
  deriving DecidableEq, Repr

/-- The `buckets_type` discriminant together with the matching arm of the
C++ `union Buckets`. -/
inductive GramBuckets (T : Type) where
  | singleton (bucks : List (SingleBucket T))
  | equiHeight (bucks : List (EquiBucket T))
  deriving DecidableEq, Repr

/-- `JsonGram<T>`: a singleton or equi-height sub-histogram plus the optional
`rest_mean_frequency`. -/
structure JsonGram (T : Type) where
  m_buckets : GramBuckets T
  rest_mean_frequency : Option ℚ := none
  deriving DecidableEq, Repr

/-- The C++ stores a type-erased `void *histogram` whose element type is
dictated by `values_type`; the embedding tags the four instantiations. -/
inductive TypedGram where
  | igram (g : JsonGram ℤ)
  | fgram (g : JsonGram ℚ)
  | bgram (g : JsonGram Bool)
  | sgram (g : JsonGram String)
  deriving DecidableEq, Repr

/-- A key-path bucket (`struct JsonBucket` of json_flex.h). -/
structure JsonBucket where
  key_path : String
  frequency : ℚ
  null_values : ℚ
  min_val : Option JsonPrim
  max_val : Option JsonPrim
  ndv : Option ℤ
  values_type : BucketValueType
  histogram : Option TypedGram
  deriving DecidableEq, Repr

/-- The `Json_flex` histogram state relevant to lookups: the bucket array and
the minimum frequency recorded during deserialisation (default 1.0). -/
structure Json_flex where
  m_buckets : List JsonBucket
  min_frequency : ℚ := 1
  deriving DecidableEq, Repr

/-- Byte-wise three-way comparison of character lists (the binary-collation
`memcmp` order underlying `stringcmp`). -/
def charListCmp : List Char → List Char → Int
  | [], [] => 0
  | [], _ :: _ => -1
  | _ :: _, [] => 1
  | a :: as, b :: bs =>
    if a.toNat < b.toNat then -1
    else if b.toNat < a.toNat then 1
    else charListCmp as bs

/-- `stringcmp` under the binary collation: negative iff the first string is
smaller, 0 iff equal, positive iff greater. -/
def stringcmp (a b : String) : Int :=
  charListCmp a.data b.data

/-- `Json_flex::find_bucket`: linear scan for the first bucket whose
`key_path` compares equal to `path`. -/
def find_bucket (h : Json_flex) (path : String) : Option JsonBucket :=
  h.m_buckets.find? (fun b => stringcmp path b.key_path = 0)

/-- The `lookup_result` produced when `ndv` decides the estimate (shared tail
of the typed `lookup_bucket` specialisations and of the untyped overload). -/
def ndv_default (base_freq : ℚ) (ndv : Option ℤ) : lookup_result :=
  match ndv with
  | some n => ⟨base_freq / (n : ℚ), base_freq * 0.3, base_freq * 0.3⟩
  | none => ⟨base_freq * 0.1, base_freq * 0.3, base_freq * 0.3⟩

/-- Ascending scan of an integer singleton sub-histogram
(`lookup_bucket<longlong>`, SINGLETON arm).  `none` means the loop ran past
the last entry and control falls through to the `ndv` defaults. -/
def singleScanInt (base_freq : ℚ) (cmp : ℤ) :
    List (SingleBucket ℤ) → ℚ → Option lookup_result
  | [], _cumulative => none
  | e :: es, cumulative =>
    if e.value = cmp then
      some ⟨base_freq * e.frequency, cumulative * base_freq,
            (1 - (cumulative + e.frequency)) * base_freq⟩
    else if e.value > cmp then
      some ⟨0, cumulative * base_freq, (1 - cumulative) * base_freq⟩
    else singleScanInt base_freq cmp es (cumulative + e.frequency)

/-- Ascending scan of an integer equi-height sub-histogram
(`lookup_bucket<longlong>`, EQUI_HEIGHT arm).  `none` models the
`assert(false)` fall-through past the last entry. -/
def equiScanInt (base_freq : ℚ) (cmp : ℤ) :
    List (EquiBucket ℤ) → ℚ → Option lookup_result
  | [], _cumulative => none
  | e :: es, cumulative =>
    if e.upper_bound ≥ cmp then
      some ⟨(base_freq * e.frequency) / (e.ndv : ℚ), cumulative * base_freq,
            (1 - cumulative) * base_freq⟩
    else equiScanInt base_freq cmp es (cumulative + e.frequency)

/-- Ascending scan of a float singleton sub-histogram
(`lookup_bucket<double>`, SINGLETON arm). -/
def singleScanFloat (base_freq : ℚ) (cmp : ℚ) :
    List (SingleBucket ℚ) → ℚ → Option lookup_result
  | [], _cumulative => none
  | e :: es, cumulative =>
    if e.value = cmp then
      some ⟨base_freq * e.frequency, cumulative * base_freq,
            (1 - (cumulative + e.frequency)) * base_freq⟩
    else if e.value > cmp then
      some ⟨0, cumulative * base_freq, (1 - cumulative) * base_freq⟩
    else singleScanFloat base_freq cmp es (cumulative + e.frequency)

/-- Ascending scan of a float equi-height sub-histogram
(`lookup_bucket<double>`, EQUI_HEIGHT arm). -/
def equiScanFloat (base_freq : ℚ) (cmp : ℚ) :
    List (EquiBucket ℚ) → ℚ → Option lookup_result
  | [], _cumulative => none
  | e :: es, cumulative =>
    if e.upper_bound ≥ cmp then
      some ⟨(base_freq * e.frequency) / (e.ndv : ℚ), cumulative * base_freq,
            (1 - cumulative) * base_freq⟩
    else equiScanFloat base_freq cmp es (cumulative + e.frequency)

/-- Ascending scan of a string singleton sub-histogram
(`lookup_bucket<String>`, SINGLETON arm).  Unlike the numeric scans this one
returns a result when it runs past the last entry, using
`rest_mean_frequency.value_or(0)`. -/
def singleScanStr (base_freq : ℚ) (rest_mean : Option ℚ) (cmp : String) :
    List (SingleBucket String) → ℚ → lookup_result
  | [], _cumulative => ⟨rest_mean.getD 0 * base_freq, base_freq, 0⟩
  | e :: es, cumulative =>
    let c := stringcmp e.value cmp
    if c = 0 then
      ⟨base_freq * e.frequency, cumulative * base_freq,
       (1 - (cumulative + e.frequency)) * base_freq⟩
    else if c > 0 then
      ⟨rest_mean.getD 0 * base_freq, cumulative * base_freq,
       (1 - cumulative) * base_freq⟩
    else singleScanStr base_freq rest_mean cmp es (cumulative + e.frequency)

/-- Body of `lookup_bucket<longlong>` after `find_bucket` succeeded and after
the FLOAT re-dispatch was ruled out (the wrapper below performs it, exactly as
the source does before this code runs). -/
def lookup_found_int (bucket : JsonBucket) (cmp : ℤ) : lookup_result :=
  let base_freq := bucket.frequency * (1 - bucket.null_values)
  let after_range : lookup_result :=
    match bucket.histogram with
    | some (.igram g) =>
      (match g.m_buckets with
       | .singleton es =>
         match singleScanInt base_freq cmp es 0 with
         | some r => r
         | none => ndv_default base_freq bucket.ndv
       | .equiHeight es =>
         -- the source asserts this loop always returns; on fall-through
         -- (release) control reaches the ndv defaults
         match equiScanInt base_freq cmp es 0 with
         | some r => r
         | none => ndv_default base_freq bucket.ndv)
    | some _ =>
      -- the source blind-casts `histogram` to `JsonGram<longlong>*`; a
      -- mismatched element type reinterprets raw memory (unspecified);
      -- modelled as the ndv defaults and excluded by typing hypotheses
      ndv_default base_freq bucket.ndv
    | none => ndv_default base_freq bucket.ndv
  match bucket.min_val, bucket.max_val with
  | some mn, some mx =>
    if mn.getInt > cmp then ⟨0, 0, base_freq⟩
    else if mx.getInt < cmp then ⟨0, base_freq, 0⟩
    else after_range
  | _, _ => after_range

/-- Body of `lookup_bucket<double>` after `find_bucket` succeeded: the float
range pre-check, then the INT re-dispatch for integral comparands (the source
re-enters `lookup_bucket<longlong>` through the same path, which re-finds the
same bucket and, its type being INT, runs `lookup_found_int`), then the float
sub-histogram scan. -/
def lookup_found_float (bucket : JsonBucket) (cmp : ℚ) : lookup_result :=
  let base_freq := bucket.frequency * (1 - bucket.null_values)
  let after_range : lookup_result :=
    if bucket.values_type = .INT ∧ cmp.den = 1 then
      -- `(longlong) cmp_val` on an integral double is its numerator
      lookup_found_int bucket cmp.num
    else
      match bucket.histogram with
      | some (.fgram g) =>
        (match g.m_buckets with
         | .singleton es =>
           -- past-the-end: `assert(false)` then fall-through to ndv defaults
           match singleScanFloat base_freq cmp es 0 with
           | some r => r
           | none => ndv_default base_freq bucket.ndv
         | .equiHeight es =>
           match equiScanFloat base_freq cmp es 0 with
           | some r => r
           | none => ndv_default base_freq bucket.ndv)
      | some _ => ndv_default base_freq bucket.ndv -- blind cast, see above
      | none => ndv_default base_freq bucket.ndv
  match bucket.min_val, bucket.max_val with
  | some mn, some mx =>
    if mn.getFloat > cmp then ⟨0, 0, base_freq⟩
    else if mx.getFloat < cmp then ⟨0, base_freq, 0⟩
    else after_range
  | _, _ => after_range

/-- `lookup_bucket<longlong>`: the FLOAT re-dispatch happens first, before the
range pre-check. -/
def lookup_bucket_int (h : Json_flex) (path : String) (cmp : ℤ) : lookup_result :=
  match find_bucket h path with
  | some bucket =>
    if bucket.values_type = .FLOAT then lookup_found_float bucket (cmp : ℚ)
    else lookup_found_int bucket cmp
  | none => ⟨h.min_frequency * 0.1, h.min_frequency * 0.3, h.min_frequency * 0.3⟩

/-- `lookup_bucket<double>`. -/
def lookup_bucket_float (h : Json_flex) (path : String) (cmp : ℚ) : lookup_result :=
  match find_bucket h path with
  | some bucket => lookup_found_float bucket cmp
  | none => ⟨h.min_frequency * 0.1, h.min_frequency * 0.3, h.min_frequency * 0.3⟩

/-- Body of `lookup_bucket<String>` after `find_bucket` succeeded. -/
def lookup_found_string (bucket : JsonBucket) (cmp : String) : lookup_result :=
  let base_freq := bucket.frequency * (1 - bucket.null_values)
  let after_range : lookup_result :=
    match bucket.histogram with
    | some (.sgram g) =>
      (match g.m_buckets with
       | .singleton es => singleScanStr base_freq g.rest_mean_frequency cmp es 0
       | .equiHeight _ =>
         -- `assert(false)` ("No support for equi-height string histograms");
         -- release control falls through to the ndv defaults
         ndv_default base_freq bucket.ndv)
    | some _ => ndv_default base_freq bucket.ndv -- blind cast, see above
    | none => ndv_default base_freq bucket.ndv
  match bucket.min_val, bucket.max_val with
  | some mn, some mx =>
    if stringcmp mn.getStr cmp > 0 then ⟨0, 0, base_freq⟩
    else if stringcmp mx.getStr cmp < 0 then ⟨0, base_freq, 0⟩
    else after_range
  | _, _ => after_range

/-- `lookup_bucket<String>`. -/
def lookup_bucket_string (h : Json_flex) (path : String) (cmp : String) : lookup_result :=
  match find_bucket h path with
  | some bucket => lookup_found_string bucket cmp
  | none => ⟨h.min_frequency * 0.1, h.min_frequency * 0.3, h.min_frequency * 0.3⟩

/-- Body of `lookup_bucket<bool>` after `find_bucket` succeeded. -/
def lookup_found_bool (bucket : JsonBucket) (cmp : Bool) : lookup_result :=
  let base_freq := bucket.frequency * (1 - bucket.null_values)
  let hist_part : lookup_result :=
    match bucket.histogram with
    | some (.bgram g) =>
      (match g.m_buckets with
       | .singleton (first :: _) =>
         let mult := if first.value = cmp then first.frequency else 1 - first.frequency
         ⟨mult * base_freq, 0, 0⟩
       | .singleton [] => ⟨base_freq * 0.5, base_freq * 0.5, base_freq * 0.5⟩
       | .equiHeight _ =>
         -- the source asserts SINGLETON ("Say no to equi-height histograms
         -- for boolean values"); the release read of the union is
         -- unspecified, modelled as the 0.5 fall-through
         ⟨base_freq * 0.5, base_freq * 0.5, base_freq * 0.5⟩)
    | some _ => ⟨base_freq * 0.5, base_freq * 0.5, base_freq * 0.5⟩
    | none => ⟨base_freq * 0.5, base_freq * 0.5, base_freq * 0.5⟩
  match bucket.min_val, bucket.max_val with
  | some mn, some mx =>
    if mn.getBool = mx.getBool then
      ⟨if mn.getBool = cmp then base_freq else 0, 0, 0⟩
    else hist_part
  | _, _ => hist_part

/-- `lookup_bucket<bool>`: note the 0.5 constants, both for a found bucket
with no usable metadata and for a missing bucket. -/
def lookup_bucket_bool (h : Json_flex) (path : String) (cmp : Bool) : lookup_result :=
  match find_bucket h path with
  | some bucket => lookup_found_bool bucket cmp
  | none => ⟨h.min_frequency * 0.5, h.min_frequency * 0.5, h.min_frequency * 0.5⟩

/-- The untyped `lookup_bucket(path)` overload. -/
def lookup_bucket_nov (h : Json_flex) (path : String) : lookup_result :=
  match find_bucket h path with
  | some bucket =>
    let base_freq := bucket.frequency * (1 - bucket.null_values)
    ndv_default base_freq bucket.ndv
  | none => ⟨h.min_frequency * 0.1, h.min_frequency * 0.3, h.min_frequency * 0.3⟩

/-- A typed comparand: the `Item` kinds the selectivity code dispatches on
(`INT_ITEM`, `REAL_ITEM`, `STRING_ITEM`, boolean-valued `FUNC_ITEM`). -/
inductive CmpVal where
  | ci (i : ℤ)
  | cr (q : ℚ)
  | cs (s : String)
  | cb (b : Bool)
  deriving DecidableEq, Repr

/-- Dispatch of `lookup_bucket(path, cmp_val)` on the comparand type. -/
def lookup_bucket_typed (h : Json_flex) (path : String) : CmpVal → lookup_result
  | .ci i => lookup_bucket_int h path i
  | .cr q => lookup_bucket_float h path q
  | .cs s => lookup_bucket_string h path s
  | .cb b => lookup_bucket_bool h path b

/-- Characters of `path` strictly before its last `'_'` (the effect of
`path.strrstr(TYPE_SEP, path.length())` followed by `substr(0, sep_offset)`).
`none` means the separator does not occur, in which case `strrstr` returns -1;
that never happens for the type-suffixed paths this is applied to, and is
modelled as the empty string by the caller. -/
def dropFromLastSep : List Char → Option (List Char)
  | [] => none
  | c :: rest =>
    match dropFromLastSep rest with
    | some l => some (c :: l)
    | none => if c = '_' then some [] else none

/-- The suffix-stripping of `get_equal_to_selectivity<T>`: everything strictly
before the last `'_'`. -/
def strip_type_suffix (path : String) : String :=
  match dropFromLastSep path.data with
  | some l => String.mk l
  | none => ""

/-- Typed `get_equal_to_selectivity<T>(path, cmp_val)`: on a missing bucket it
retries the untyped lookup on the path with the trailing type suffix
stripped. -/
def get_equal_to_selectivity_v (h : Json_flex) (path : String) (v : CmpVal) : ℚ :=
  match find_bucket h path with
  | some _ => (lookup_bucket_typed h path v).eq_frequency
  | none => (lookup_bucket_nov h (strip_type_suffix path)).eq_frequency

/-- Typed `get_not_equal_to_selectivity<T>(path, cmp_val)`. -/
def get_not_equal_to_selectivity_v (h : Json_flex) (path : String) (v : CmpVal) : ℚ :=
  match find_bucket h path with
  | some bucket =>
    bucket.frequency * (1 - bucket.null_values) - (lookup_bucket_typed h path v).eq_frequency
  | none => h.min_frequency * 0.9

/-- Typed `get_less_than_selectivity<T>(path, cmp_val)`. -/
def get_less_than_selectivity_v (h : Json_flex) (path : String) (v : CmpVal) : ℚ :=
  (lookup_bucket_typed h path v).lt_frequency

/-- Typed `get_greater_than_selectivity<T>(path, cmp_val)`. -/
def get_greater_than_selectivity_v (h : Json_flex) (path : String) (v : CmpVal) : ℚ :=
  (lookup_bucket_typed h path v).gt_frequency

/-- Untyped `get_not_equal_to_selectivity(path)`. -/
def get_not_equal_to_selectivity_nov (h : Json_flex) (path : String) : ℚ :=
  match find_bucket h path with
  | some bucket =>
    bucket.frequency * (1 - bucket.null_values) - (lookup_bucket_nov h path).eq_frequency
  | none => h.min_frequency * 0.9

/-- Untyped `get_equal_to_selectivity(path)`. -/
def get_equal_to_selectivity_nov (h : Json_flex) (path : String) : ℚ :=
  (lookup_bucket_nov h path).eq_frequency

/-- Untyped `get_less_than_selectivity(path)`. -/
def get_less_than_selectivity_nov (h : Json_flex) (path : String) : ℚ :=
  (lookup_bucket_nov h path).lt_frequency

/-- Untyped `get_greater_than_selectivity(path)`. -/
def get_greater_than_selectivity_nov (h : Json_flex) (path : String) : ℚ :=
  (lookup_bucket_nov h path).gt_frequency

/-- `get_not_eq_null_selectivity(path)`. -/
def get_not_eq_null_selectivity (h : Json_flex) (path : String) : ℚ :=
  match find_bucket h path with
  | some bucket => bucket.frequency * (1 - bucket.null_values)
  | none => h.min_frequency * 0.8

/-- `get_eq_null_selectivity(path)`. -/
def get_eq_null_selectivity (h : Json_flex) (path : String) : ℚ :=
  match find_bucket h path with
  | some bucket => bucket.frequency * bucket.null_values
  | none => h.min_frequency * 0.2

/-- `get_exists_selectivity(path)`. -/
def get_exists_selectivity (h : Json_flex) (path : String) : ℚ :=
  match find_bucket h path with
  | some bucket => bucket.frequency
  | none => h.min_frequency

/-- `enum_operator` (the operators json_flex.cc handles). -/
inductive enum_operator where
  | EQUALS_TO | NOT_EQUALS_TO
  | LESS_THAN | LESS_THAN_OR_EQUAL
  | GREATER_THAN | GREATER_THAN_OR_EQUAL
  | BETWEEN | NOT_BETWEEN
  | IN_LIST | NOT_IN_LIST
  | IS_NULL | IS_NOT_NULL
  deriving DecidableEq, Repr

/-- Eye-catching value returned from selectivity code paths that assert
(`err_selectivity_val`). -/
def err_selectivity_val : ℚ := 0.123456789

/-- `selectivity_getter_dispatch<T>` (single-comparand operators; LE collapses
to LT and GE to GT). -/
def selectivity_getter_dispatch (h : Json_flex) (arg_path : String)
    (op : enum_operator) (v : CmpVal) : ℚ :=
  match op with
  | .EQUALS_TO => get_equal_to_selectivity_v h arg_path v
  | .NOT_EQUALS_TO => get_not_equal_to_selectivity_v h arg_path v
  | .LESS_THAN_OR_EQUAL | .LESS_THAN => get_less_than_selectivity_v h arg_path v
  | .GREATER_THAN_OR_EQUAL | .GREATER_THAN => get_greater_than_selectivity_v h arg_path v
  | _ => err_selectivity_val -- default: assert(false)

/-- The untyped `selectivity_getter_dispatch` overload. -/
def selectivity_getter_dispatch_nov (h : Json_flex) (arg_path : String)
    (op : enum_operator) : ℚ :=
  match op with
  | .NOT_EQUALS_TO => get_not_equal_to_selectivity_nov h arg_path
  | .EQUALS_TO => get_equal_to_selectivity_nov h arg_path
  | .LESS_THAN_OR_EQUAL | .LESS_THAN => get_less_than_selectivity_nov h arg_path
  | .GREATER_THAN_OR_EQUAL | .GREATER_THAN => get_greater_than_selectivity_nov h arg_path
  | _ => err_selectivity_val -- default: assert(false)

/-- A homogeneous comparand list, discriminated by `comparands[0]->type()`
exactly as `multi_val_dispatch` does (`FUNC_ITEM` carries the boolean
constants; their `val_int()` is 0 or 1 by construction here, so the source
guard on that value always passes). -/
inductive CmpItems where
  | ints (xs : List ℤ)
  | reals (xs : List ℚ)
  | strs (xs : List String)
  | funcs (xs : List Bool)
  deriving DecidableEq, Repr

/-- The IN_LIST arm of `multi_val_dispatch`: sum of per-element equality
estimates, clipped (when the path has a bucket) to the raw bucket field
`frequency`. -/
def in_list_selectivity (h : Json_flex) (arg_path : String) : CmpItems → ℚ
  | .ints xs =>
    let sum := xs.foldl (fun acc x => acc + get_equal_to_selectivity_v h arg_path (.ci x)) 0
    (match find_bucket h arg_path with
     | some bucket => min bucket.frequency sum
     | none => sum)
  | .strs xs =>
    let sum := xs.foldl (fun acc x => acc + get_equal_to_selectivity_v h arg_path (.cs x)) 0
    (match find_bucket h arg_path with
     | some bucket => min bucket.frequency sum
     | none => sum)
  | .funcs xs =>
    let sum := xs.foldl (fun acc x => acc + get_equal_to_selectivity_v h arg_path (.cb x)) 0
    (match find_bucket h arg_path with
     | some bucket => min bucket.frequency sum
     | none => sum)
  | .reals _ => err_selectivity_val -- default: assert(false) ("no float lists")

/-- `multi_val_dispatch` (BETWEEN / IN_LIST / NOT_IN_LIST).  BETWEEN uses
`comparands[0]` and `comparands[1]`; the `a ≤ b` check is only an assert and
is compiled out in release, so no check appears here.  Lists of fewer than
two comparands would read out of bounds in the source (the count is asserted
to be 2 upstream); they are routed to `err_selectivity_val`. -/
def multi_val_dispatch (h : Json_flex) (arg_path : String)
    (op : enum_operator) (items : CmpItems) : ℚ :=
  match op with
  | .BETWEEN =>
    (match items with
     | .ints (a :: b :: _) =>
       let below := get_less_than_selectivity_v h arg_path (.ci a)
       let above := get_greater_than_selectivity_v h arg_path (.ci b)
       1 - (above + below)
     | .reals (a :: b :: _) =>
       let below := get_less_than_selectivity_v h arg_path (.cr a)
       let above := get_greater_than_selectivity_v h arg_path (.cr b)
       1 - (above + below)
     | .strs (a :: b :: _) =>
       let below := get_less_than_selectivity_v h arg_path (.cs a)
       let above := get_greater_than_selectivity_v h arg_path (.cs b)
       1 - (above + below)
     | _ => err_selectivity_val) -- default: assert(false)
  | .IN_LIST => in_list_selectivity h arg_path items
  | .NOT_IN_LIST =>
    get_not_eq_null_selectivity h arg_path - in_list_selectivity h arg_path items
  | _ => err_selectivity_val -- default: assert(false)

/-- The zero-comparand branch of `Json_flex::get_selectivity` (IS NULL /
IS NOT NULL), taking the name of the outer function and the already-encoded
`arg_path`.  `none` models `assert(false); return true` for any other
operator. -/
def get_selectivity_no_comparands (h : Json_flex) (func_name : String)
    (arg_path : String) (op : enum_operator) : Option ℚ :=
  if func_name = "json_value" then
    match op with
    | .IS_NULL => some (1 - get_not_eq_null_selectivity h arg_path)
    | .IS_NOT_NULL => some (get_not_eq_null_selectivity h arg_path)
    | _ => none
  else
    match op with
    | .IS_NULL => some (1 - get_exists_selectivity h arg_path)
    | .IS_NOT_NULL => some (get_exists_selectivity h arg_path)
    | _ => none

/-!
## The canonical key-path encoder

`Json_flex::build_histogram_query_string` scans the path expression once,
left to right, with two iterators that coincide at the head of every loop
iteration.  `bhqs_loop` is the state at the `outer_loop` label;
`bhqs_after_dot` is the state immediately after the leading-dot skip inside
one iteration (both iterators advanced past a `'.'`).  Inputs on which the
source would read past the end of the string (paths ending in `'.'`,
unclosed brackets) are given the harmless interpretation noted inline.
-/

mutual

/-- One iteration of the encoder loop, entered at the `while` test. -/
def bhqs_loop : List Char → String → String
  | [], builder => builder
  | '.' :: rest, builder => bhqs_after_dot rest builder
  | '[' :: r, builder =>
    -- array branch: scan to the closing ']' (unclosed brackets overrun in
    -- the source; here they consume the remainder)
    let digits := r.takeWhile (fun ch => ch ≠ ']')
    let builder := if builder.length > 0 then builder ++ "_arr." else builder
    let builder := builder ++ String.mk digits
    bhqs_loop (r.drop (digits.length + 1)) builder
  | c :: r, builder =>
    -- object/terminal branch; `c` is neither '.' nor '[' here, so the span
    -- it heads is nonempty
    let span := c :: r.takeWhile (fun ch => ch ≠ '.' ∧ ch ≠ '[')
    let rest := (c :: r).drop span.length
    if rest.isEmpty then builder ++ String.mk span
    else
      let builder := builder ++ String.mk span
      let builder := if rest.head? = some '.' then builder ++ "_obj." else builder
      bhqs_loop rest builder
termination_by s _b => 2 * s.length
decreasing_by
  all_goals simp only [List.length_cons, List.length_drop]
  all_goals omega

/-- The continuation of a loop iteration after both iterators skipped a
`'.'`.  The head character may again be `'.'` (consecutive dots), giving an
empty span. -/
def bhqs_after_dot : List Char → String → String
  | [], builder => builder -- source dereferences str.end() here (path ends in '.')
  | '[' :: r, builder =>
    let digits := r.takeWhile (fun ch => ch ≠ ']')
    let builder := if builder.length > 0 then builder ++ "_arr." else builder
    let builder := builder ++ String.mk digits
    bhqs_loop (r.drop (digits.length + 1)) builder
  | c :: r, builder =>
    let span := (c :: r).takeWhile (fun ch => ch ≠ '.' ∧ ch ≠ '[')
    let rest := (c :: r).drop span.length
    if rest.isEmpty then builder ++ String.mk span
    else
      let builder := builder ++ String.mk span
      let builder := if rest.head? = some '.' then builder ++ "_obj." else builder
      bhqs_loop rest builder
termination_by s _b => 2 * s.length + 1
decreasing_by
  all_goals simp only [List.length_cons, List.length_drop]
  all_goals omega

end

/-- The `Item::Type` kinds the suffix switch of the encoder dispatches on. -/
inductive ItemType where
  | INT_ITEM | REAL_ITEM | STRING_ITEM | FUNC_ITEM | NULL_ITEM
  deriving DecidableEq, Repr

/-- `Json_flex::build_histogram_query_string`: scan the path expression
(skipping the leading `'$'`), then append the comparand-type suffix when a
comparand is present and the argument type is certain.  `none` models the
`assert(false); return true` arm of the suffix switch. -/
def build_histogram_query_string (path_expr : String) (comparand : Option ItemType)
    (arg_type_certain : Bool) : Option String :=
  let builder := bhqs_loop (path_expr.data.drop 1) ""
  match comparand, arg_type_certain with
  | some t, true =>
    (match t with
     | .INT_ITEM => some (builder ++ "_num")
     | .REAL_ITEM => some (builder ++ "_num")
     | .STRING_ITEM => some (builder ++ "_str")
     | .FUNC_ITEM => some (builder ++ "_bool")
     | .NULL_ITEM => none)
  | _, _ => some builder

/-!
## JSON (de)serialisation of the bucket array

`histogram_to_json` / `json_to_histogram` restricted to the `"buckets"` field
(the remaining top-level fields — `"histogram-type"`, `"null-values"`,
`"last-updated"`, ... — are read and written by the external `Histogram` base
class).  The `Json_dom` node kinds used by the bucket codec are modelled by
`JsonDom`; `extract_json_dom_value` lives in the external base class and is
modelled from the spec (§6.1: key paths and string values arrive as opaque
"type254" strings; frequencies are JSON doubles; ndv is an integer). -/
inductive JsonDom where
  | jInt (i : ℤ)
  | jUint (i : ℤ)
  | jDouble (q : ℚ)
  | jBool (b : Bool)
  | jString (s : String)
  | jOpaque (s : String)
  | jArray (xs : List JsonDom)
  | jObject (fields : List (String × JsonDom))
  deriving Repr

/-- `Json_object::get`: lookup of a field by name. -/
def objGet (fields : List (String × JsonDom)) (k : String) : Option JsonDom :=
  (fields.find? (fun f => f.1 = k)).map (fun f => f.2)

/-- Modelled from the spec: `extract_json_dom_value` into a `String`
(external `Histogram` base class).  String values are carried as opaque
"type254" nodes or plain JSON strings. -/
def extractString : JsonDom → Option String
  | .jString s => some s
  | .jOpaque s => some s
  | _ => none

/-- Modelled from the spec: `extract_json_dom_value` into a `double`
(external `Histogram` base class); requires a JSON double node. -/
def extractDouble : JsonDom → Option ℚ
  | .jDouble q => some q
  | _ => none

/-- Modelled from the spec: `extract_json_dom_value` into a `longlong`
(external `Histogram` base class); accepts signed and unsigned JSON ints. -/
def extractInt : JsonDom → Option ℤ
  | .jInt i => some i
  | .jUint i => some i
  | _ => none

/-- Modelled from the spec: `extract_json_dom_value` into a `bool`
(external `Histogram` base class). -/
def extractBool : JsonDom → Option Bool
  | .jBool b => some b
  | _ => none

/-- A value codec: how one sub-histogram element type is written to and read
from JSON (`add_value_json_bucket` overload + `extract_json_dom_value`
overload for that type). -/
structure ValCodec (T : Type) where
  ser : T → JsonDom
  ext : JsonDom → Option T

/-- `longlong` values: written as `Json_int`. -/
def intCodec : ValCodec ℤ := ⟨fun i => .jInt i, extractInt⟩

/-- `double` values: written as `Json_double`. -/
def floatCodec : ValCodec ℚ := ⟨fun q => .jDouble q, extractDouble⟩

/-- `bool` values: written as `Json_boolean`. -/
def boolCodec : ValCodec Bool := ⟨fun b => .jBool b, extractBool⟩

/-- `BucketString` values: written as `Json_opaque` (MYSQL_TYPE_STRING). -/
def strCodec : ValCodec String := ⟨fun s => .jOpaque s, extractString⟩

/-- `JsonGram<T>::json_to_json_gram`, SINGLETON arm.  The source *ignores*
the error flag this loop returns (json_to_histogram discards the result of
the `json_to_json_gram` call), so a failing entry merely stops the loop,
keeping the prefix parsed so far.  A bucket array of fewer than two cells
would be read out of bounds (the arity is only asserted); that read is
modelled as a failing entry. -/
def parseSingles (C : ValCodec T) : List JsonDom → List (SingleBucket T)
  | [] => []
  | d :: rest =>
    match d with
    | .jArray cells =>
      (match (cells.get? 0).bind C.ext, (cells.get? 1).bind extractDouble with
       | some v, some f => ⟨v, f⟩ :: parseSingles C rest
       | _, _ => [])
    | _ => []

/-- `JsonGram<T>::json_to_json_gram`, EQUI_HEIGHT arm (same error-ignoring
behaviour as the singleton arm). -/
def parseEquis (C : ValCodec T) : List JsonDom → List (EquiBucket T)
  | [] => []
  | d :: rest =>
    match d with
    | .jArray cells =>
      (match (cells.get? 0).bind C.ext, (cells.get? 1).bind extractDouble,
             (cells.get? 2).bind extractInt with
       | some v, some f, some n => ⟨v, f, n⟩ :: parseEquis C rest
       | _, _, _ => [])
    | _ => []

/-- `create_singlegram` / `create_equigram` followed by `json_to_json_gram`
(whose error flag the caller ignores). -/
def mkGram (C : ValCodec T) (isSingle : Bool) (arr : List JsonDom) : JsonGram T :=
  if isSingle then ⟨.singleton (parseSingles C arr), none⟩
  else ⟨.equiHeight (parseEquis C arr), none⟩

/-- Installing the parsed `rest_frequency` into a typed gram. -/
def TypedGram.setRest : TypedGram → ℚ → TypedGram
  | .igram g, r => .igram { g with rest_mean_frequency := some r }
  | .fgram g, r => .fgram { g with rest_mean_frequency := some r }
  | .bgram g, r => .bgram { g with rest_mean_frequency := some r }
  | .sgram g, r => .sgram { g with rest_mean_frequency := some r }

/-- Parsing the seventh bucket cell (the sub-histogram object): requires the
`"type"` and `"buckets"` attributes; the element type is dictated by
`values_type`.  A `"type"` value other than `"singleton"` selects
EQUI_HEIGHT (the exact string is only asserted).  Nodes that the source
blind-`down_cast`s (`"type"` not a JSON string, `"buckets"` not an array, the
cell not an object, `"rest_frequency"` not a double) are modelled as parse
failures. -/
def parse_gram (vt : BucketValueType) (dom : JsonDom) : Option TypedGram :=
  match dom with
  | .jObject fields =>
    (match objGet fields "type", objGet fields "buckets" with
     | some (.jString tstr), some (.jArray arr) =>
       let isSingle := tstr = "singleton"
       let g : Option TypedGram :=
         match vt with
         | .INT => some (.igram (mkGram intCodec isSingle arr))
         | .FLOAT => some (.fgram (mkGram floatCodec isSingle arr))
         | .BOOL => some (.bgram (mkGram boolCodec isSingle arr))
         | .STRING => some (.sgram (mkGram strCodec isSingle arr))
         | .UNKNOWN => none -- assert(false); report; return true
       (match g with
        | some g0 =>
          (match objGet fields "rest_frequency" with
           | some (.jDouble r) => some (g0.setRest r)
           | some _ => none -- asserted J_DOUBLE, then blind down_cast
           | none => some g0)
        | none => none)
     | _, _ => none)
  | _ => none

/-- Parsing the min/max cells: their node kinds must coincide, and determine
`values_type`. -/
def parse_minmax (mn mx : JsonDom) : Option (JsonPrim × JsonPrim × BucketValueType) :=
  match mn, mx with
  | .jDouble a, .jDouble b => some (.pFloat a, .pFloat b, .FLOAT)
  | .jBool a, .jBool b => some (.pBool a, .pBool b, .BOOL)
  | .jInt a, .jInt b => some (.pInt a, .pInt b, .INT)
  | .jUint a, .jUint b => some (.pInt a, .pInt b, .INT)
  | .jString a, .jString b => some (.pString a, .pString b, .STRING)
  | .jOpaque a, .jOpaque b => some (.pString a, .pString b, .STRING)
  | _, _ => none

/-- Parsing one element of the top-level `"buckets"` array (the body of the
loop in `Json_flex::json_to_histogram`).  The arity gates mirror
`json_bucket_total_member_count() - json_bucket_optional_member_count() = 3`:
min/max from five cells, ndv from six, the sub-histogram from seven; extra
cells are ignored. -/
def parse_bucket (dom : JsonDom) : Option JsonBucket :=
  match dom with
  | .jArray cells =>
    if cells.length < 3 then none
    else
      (match (cells.get? 0).bind extractString, (cells.get? 1).bind extractDouble,
             (cells.get? 2).bind extractDouble with
       | some key, some freq, some nv =>
         if cells.length ≥ 5 then
           match ((cells.get? 3).bind fun a => (cells.get? 4).map fun b => (a, b)) with
           | some (mnd, mxd) =>
             (match parse_minmax mnd mxd with
              | some (mn, mx, vt) =>
                if cells.length ≥ 6 then
                  match (cells.get? 5).bind extractInt with
                  | some n =>
                    if cells.length ≥ 7 then
                      match (cells.get? 6).bind (parse_gram vt) with
                      | some g => some ⟨key, freq, nv, some mn, some mx, some n, vt, some g⟩
                      | none => none
                    else some ⟨key, freq, nv, some mn, some mx, some n, vt, none⟩
                  | none => none
                else some ⟨key, freq, nv, some mn, some mx, none, vt, none⟩
              | none => none)
           | none => none
         else some ⟨key, freq, nv, none, none, none, .UNKNOWN, none⟩
       | _, _, _ => none)
  | _ => none

/-- The loop of `json_to_histogram` over the `"buckets"` array: every element
must parse. -/
def parse_buckets : List JsonDom → Option (List JsonBucket)
  | [] => some []
  | d :: rest =>
    match parse_bucket d with
    | some b => (parse_buckets rest).map (fun bs => b :: bs)
    | none => none

/-- `Json_flex::json_to_histogram` restricted to the `"buckets"` attribute:
it must exist and be an array, and every bucket must parse.  (The derived
`min_frequency` bookkeeping is a fold over the parsed frequencies and carries
no extra information.) -/
def json_to_histogram (dom : JsonDom) : Option (List JsonBucket) :=
  match dom with
  | .jObject fields =>
    (match objGet fields "buckets" with
     | some (.jArray arr) => parse_buckets arr
     | some _ => none
     | none => none)
  | _ => none

/-- `JsonGram<T>::populate_json_array`, SINGLETON entries. -/
def serSingle (C : ValCodec T) (e : SingleBucket T) : JsonDom :=
  .jArray [C.ser e.value, .jDouble e.frequency]

/-- `JsonGram<T>::populate_json_array`, EQUI_HEIGHT entries. -/
def serEqui (C : ValCodec T) (e : EquiBucket T) : JsonDom :=
  .jArray [C.ser e.upper_bound, .jDouble e.frequency, .jInt e.ndv]

/-- The gram object written by `create_json_bucket`: the `"type"` string, the
`"buckets"` array, and — when set — the `"rest_frequency"` double. -/
def gram_object (typeName : String) (bucks : List JsonDom) (rest : Option ℚ) : JsonDom :=
  .jObject ([("type", .jString typeName), ("buckets", .jArray bucks)] ++
    (match rest with
     | some r => [("rest_frequency", .jDouble r)]
     | none => []))

/-- Serialisation of a typed gram. -/
def typedGram_json : TypedGram → JsonDom
  | .igram ⟨.singleton es, rest⟩ => gram_object "singleton" (es.map (serSingle intCodec)) rest
  | .igram ⟨.equiHeight es, rest⟩ => gram_object "equi-height" (es.map (serEqui intCodec)) rest
  | .fgram ⟨.singleton es, rest⟩ => gram_object "singleton" (es.map (serSingle floatCodec)) rest
  | .fgram ⟨.equiHeight es, rest⟩ => gram_object "equi-height" (es.map (serEqui floatCodec)) rest
  | .bgram ⟨.singleton es, rest⟩ => gram_object "singleton" (es.map (serSingle boolCodec)) rest
  | .bgram ⟨.equiHeight es, rest⟩ => gram_object "equi-height" (es.map (serEqui boolCodec)) rest
  | .sgram ⟨.singleton es, rest⟩ => gram_object "singleton" (es.map (serSingle strCodec)) rest
  | .sgram ⟨.equiHeight es, rest⟩ => gram_object "equi-height" (es.map (serEqui strCodec)) rest

/-- The min/max cells written by `create_json_bucket` (the switch over
`values_type`; the optionals are dereferenced by the source, which never
writes min/max of an UNKNOWN bucket). -/
def minmax_json (vt : BucketValueType) (v : Option JsonPrim) : JsonDom :=
  match vt with
  | .INT => .jInt ((v.getD (.pInt 0)).getInt)
  | .FLOAT => .jDouble ((v.getD (.pInt 0)).getFloat)
  | .BOOL => .jBool ((v.getD (.pInt 0)).getBool)
  | .STRING => .jOpaque ((v.getD (.pInt 0)).getStr)
  | .UNKNOWN => .jInt 0 -- unreachable: guarded by the caller

/-- `Json_flex::create_json_bucket`: key path, frequency, null_values, then —
for a typed bucket — min/max, then — when `ndv` is set — ndv, then — when a
sub-histogram is attached — the gram object. -/
def create_json_bucket (b : JsonBucket) : List JsonDom :=
  [.jOpaque b.key_path, .jDouble b.frequency, .jDouble b.null_values] ++
    (if b.values_type = .UNKNOWN then []
     else [minmax_json b.values_type b.min_val, minmax_json b.values_type b.max_val] ++
       (match b.ndv with
        | some n =>
          .jInt n :: (match b.histogram with
            | some g => [typedGram_json g]
            | none => [])
        | none => []))

/-- `Json_flex::histogram_to_json` restricted to the `"buckets"` attribute. -/
def histogram_to_json (bs : List JsonBucket) : JsonDom :=
  .jObject [("buckets", .jArray (bs.map (fun b => .jArray (create_json_bucket b))))]

/-!
## Helper lemmas
-/

/-- If every element of `l` is below the separator, the reverse scan for the
last separator fails. -/
theorem dropFromLastSep_eq_none {l : List Char} (hl : '_' ∉ l) :
    dropFromLastSep l = none := by
  induction l with
  | nil => rfl
  | cons c rest ih =>
    simp only [List.mem_cons, not_or] at hl
    simp [dropFromLastSep, ih hl.2, (Ne.symm hl.1 : c ≠ '_')]

/-- Splitting off everything before the last separator. -/
theorem dropFromLastSep_append (p : List Char) {s : List Char} (hs : '_' ∉ s) :
    dropFromLastSep (p ++ '_' :: s) = some p := by
  induction p with
  | nil => simp [dropFromLastSep, dropFromLastSep_eq_none hs]
  | cons c rest ih => simp [dropFromLastSep, ih]

/-- `strip_type_suffix` removes exactly the trailing `'_'`-separated token
when that token contains no further separator. -/
theorem strip_type_suffix_append (p : String) {s : List Char} (hs : '_' ∉ s) :
    strip_type_suffix ⟨p.data ++ '_' :: s⟩ = p := by
  simp [strip_type_suffix, dropFromLastSep_append p.data hs]

/-- Ascending integer singleton scan: stopping at the first entry above the
comparand.  The accumulated `cumulative` is the sum of the skipped
frequencies. -/
theorem singleScanInt_first_greater (base : ℚ) (cmp : ℤ) :
    ∀ (E1 : List (SingleBucket ℤ)) (e : SingleBucket ℤ) (E2 : List (SingleBucket ℤ))
      (cum : ℚ), (∀ x ∈ E1, x.value < cmp) → cmp < e.value →
      singleScanInt base cmp (E1 ++ e :: E2) cum =
        some ⟨0, (cum + (E1.map (fun x => x.frequency)).sum) * base,
              (1 - (cum + (E1.map (fun x => x.frequency)).sum)) * base⟩ := by
  intro E1
  induction E1 with
  | nil =>
    intro e E2 cum _h1 h2
    have hne : e.value ≠ cmp := by omega
    have hgt : e.value > cmp := h2
    simp [singleScanInt, hne, hgt]
  | cons x E1 ih =>
    intro e E2 cum h1 h2
    have hx : x.value < cmp := h1 x (by simp)
    have hne : x.value ≠ cmp := by omega
    have hngt : ¬ x.value > cmp := by omega
    simp only [List.cons_append, singleScanInt, hne, if_false, hngt, if_neg,
      List.map_cons, List.sum_cons, List.append_eq]
    rw [ih e E2 (cum + x.frequency) (fun y hy => h1 y (by simp [hy])) h2]
    have hsum : cum + x.frequency + (List.map (fun x => x.frequency) E1).sum =
        cum + (x.frequency + (List.map (fun x => x.frequency) E1).sum) := by ring
    rw [hsum]

/-- Ascending integer singleton scan running past the last entry: the source
falls through to the `ndv` defaults. -/
theorem singleScanInt_past_end (base : ℚ) (cmp : ℤ) :
    ∀ (L : List (SingleBucket ℤ)) (cum : ℚ), (∀ x ∈ L, x.value < cmp) →
      singleScanInt base cmp L cum = none := by
  intro L
  induction L with
  | nil => intro cum _; rfl
  | cons x L ih =>
    intro cum h1
    have hx : x.value < cmp := h1 x (by simp)
    have hne : x.value ≠ cmp := by omega
    have hngt : ¬ x.value > cmp := by omega
    simp only [singleScanInt, hne, if_false, hngt, if_neg]
    exact ih _ (fun y hy => h1 y (by simp [hy]))

/-- Ascending float singleton scan: stopping at the first entry above the
comparand. -/
theorem singleScanFloat_first_greater (base : ℚ) (cmp : ℚ) :
    ∀ (E1 : List (SingleBucket ℚ)) (e : SingleBucket ℚ) (E2 : List (SingleBucket ℚ))
      (cum : ℚ), (∀ x ∈ E1, x.value < cmp) → cmp < e.value →
      singleScanFloat base cmp (E1 ++ e :: E2) cum =
        some ⟨0, (cum + (E1.map (fun x => x.frequency)).sum) * base,
              (1 - (cum + (E1.map (fun x => x.frequency)).sum)) * base⟩ := by
  intro E1
  induction E1 with
  | nil =>
    intro e E2 cum _h1 h2
    have hne : e.value ≠ cmp := by intro hc; rw [hc] at h2; exact lt_irrefl _ h2
    have hgt : e.value > cmp := h2
    simp [singleScanFloat, hne, hgt]
  | cons x E1 ih =>
    intro e E2 cum h1 h2
    have hx : x.value < cmp := h1 x (by simp)
    have hne : x.value ≠ cmp := ne_of_lt hx
    have hngt : ¬ x.value > cmp := not_lt.mpr (le_of_lt hx)
    simp only [List.cons_append, singleScanFloat, hne, if_false, hngt, if_neg,
      List.map_cons, List.sum_cons, List.append_eq]
    rw [ih e E2 (cum + x.frequency) (fun y hy => h1 y (by simp [hy])) h2]
    have hsum : cum + x.frequency + (List.map (fun x => x.frequency) E1).sum =
        cum + (x.frequency + (List.map (fun x => x.frequency) E1).sum) := by ring
    rw [hsum]

/-- Ascending float singleton scan running past the last entry. -/
theorem singleScanFloat_past_end (base : ℚ) (cmp : ℚ) :
    ∀ (L : List (SingleBucket ℚ)) (cum : ℚ), (∀ x ∈ L, x.value < cmp) →
      singleScanFloat base cmp L cum = none := by
  intro L
  induction L with
  | nil => intro cum _; rfl
  | cons x L ih =>
    intro cum h1
    have hx : x.value < cmp := h1 x (by simp)
    have hne : x.value ≠ cmp := ne_of_lt hx
    have hngt : ¬ x.value > cmp := not_lt.mpr (le_of_lt hx)
    simp only [singleScanFloat, hne, if_false, hngt, if_neg]
    exact ih _ (fun y hy => h1 y (by simp [hy]))

/-- Ascending string singleton scan: stopping at the first entry above the
comparand uses `rest_mean_frequency.value_or(0)` for the equality estimate. -/
theorem singleScanStr_first_greater (base : ℚ) (rest : Option ℚ) (cmp : String) :
    ∀ (E1 : List (SingleBucket String)) (e : SingleBucket String)
      (E2 : List (SingleBucket String)) (cum : ℚ),
      (∀ x ∈ E1, stringcmp x.value cmp < 0) → stringcmp e.value cmp > 0 →
      singleScanStr base rest cmp (E1 ++ e :: E2) cum =
        ⟨rest.getD 0 * base, (cum + (E1.map (fun x => x.frequency)).sum) * base,
         (1 - (cum + (E1.map (fun x => x.frequency)).sum)) * base⟩ := by
  intro E1
  induction E1 with
  | nil =>
    intro e E2 cum _h1 h2
    have hne : ¬ stringcmp e.value cmp = 0 := by omega
    simp [singleScanStr, hne, h2]
  | cons x E1 ih =>
    intro e E2 cum h1 h2
    have hx : stringcmp x.value cmp < 0 := h1 x (by simp)
    have hne : ¬ stringcmp x.value cmp = 0 := by omega
    have hngt : ¬ stringcmp x.value cmp > 0 := by omega
    simp only [List.cons_append, singleScanStr, hne, if_false, hngt, if_neg,
      List.map_cons, List.sum_cons, List.append_eq]
    rw [ih e E2 (cum + x.frequency) (fun y hy => h1 y (by simp [hy])) h2]
    have hsum : cum + x.frequency + (List.map (fun x => x.frequency) E1).sum =
        cum + (x.frequency + (List.map (fun x => x.frequency) E1).sum) := by ring
    rw [hsum]

/-- Ascending string singleton scan running past the last entry: the result
is produced directly, again from `rest_mean_frequency.value_or(0)`. -/
theorem singleScanStr_past_end (base : ℚ) (rest : Option ℚ) (cmp : String) :
    ∀ (L : List (SingleBucket String)) (cum : ℚ),
      (∀ x ∈ L, stringcmp x.value cmp < 0) →
      singleScanStr base rest cmp L cum = ⟨rest.getD 0 * base, base, 0⟩ := by
  intro L
  induction L with
  | nil => intro cum _; rfl
  | cons x L ih =>
    intro cum h1
    have hx : stringcmp x.value cmp < 0 := h1 x (by simp)
    have hne : ¬ stringcmp x.value cmp = 0 := by omega
    have hngt : ¬ stringcmp x.value cmp > 0 := by omega
    simp only [singleScanStr, hne, if_false, hngt, if_neg]
    exact ih _ (fun y hy => h1 y (by simp [hy]))

/-!
## Claim theorems
-/

/-- C1 (counterexample): on the path expression
`$.docs[0].history.edits[5].datetime` with a String comparand and
`type_certain = true`, the encoder does NOT produce
`docs_arr.0_obj.history_obj.edits_arr.5_str`: it produces
`docs_arr.0history_obj.edits_arr.5datetime_str` (no separator is emitted
between an array index and a following object key, and the terminal step is
glued to the preceding array index). -/
theorem C1_counterexample :
    build_histogram_query_string "$.docs[0].history.edits[5].datetime"
        (some .STRING_ITEM) true =
      some "docs_arr.0history_obj.edits_arr.5datetime_str" ∧
    some "docs_arr.0history_obj.edits_arr.5datetime_str" ≠
      some "docs_arr.0_obj.history_obj.edits_arr.5_str" := by
  constructor
  · simp [build_histogram_query_string, bhqs_loop, bhqs_after_dot]
    decide
  · decide

/-- C1 (amended): on `$.docs[0].history.edits[5].datetime` with a String
comparand and `type_certain = true` the encoder produces exactly
`docs_arr.0history_obj.edits_arr.5datetime_str`.  Before an array index the
encoder emits `_arr.` after whatever has been emitted so far (when nonempty);
after an object key that is followed by a further `.` access it emits
`_obj.`; a step following an array index gets no separator at all, and the
terminal step is appended bare; a `_str` suffix is appended for a
type-certain String comparand. -/
theorem C1_amended :
    build_histogram_query_string "$.docs[0].history.edits[5].datetime"
        (some .STRING_ITEM) true =
      some "docs_arr.0history_obj.edits_arr.5datetime_str" ∧
    (∀ p : String, build_histogram_query_string p (some .STRING_ITEM) true =
        some (bhqs_loop (p.data.drop 1) "" ++ "_str")) := by
  constructor
  · simp [build_histogram_query_string, bhqs_loop, bhqs_after_dot]
    decide
  · intro p
    rfl

/-- C2 (counterexample): a NOT-EQUALS query on a missing path returns
`min_frequency * 0.9`, not `min_frequency * 0.1` as the equality-class
constant of the claim would require (histogram with no buckets and
`min_frequency = 0.13`). -/
theorem C2_counterexample :
    get_not_equal_to_selectivity_v ⟨[], 13/100⟩ "p_num" (.ci 5) = 117/1000 ∧
    (117/1000 : ℚ) ≠ 13/100 * 0.1 := by
  constructor
  · simp [get_not_equal_to_selectivity_v, find_bucket]
    norm_num
  · norm_num

/-- C2 (amended): on a missing path the estimates are
`min_frequency * c` with: `c = 0.1` for equality only after the
suffix-stripped untyped retry also misses; `c = 0.9` (not `0.1`) for
NOT-EQUALS; `c = 0.3` for less-than/greater-than with int, float and string
comparands but `c = 0.5` for boolean comparands; IS NOT NULL under
`json_value` gives `0.8 * min_frequency` and under any other function
`min_frequency` itself, with IS NULL returning one minus those (not
`0.2 * min_frequency`). -/
theorem C2_amended (h : Json_flex) (p : String) (hmiss : find_bucket h p = none) :
    (find_bucket h (strip_type_suffix p) = none →
      ∀ v : CmpVal, get_equal_to_selectivity_v h p v = h.min_frequency * 0.1) ∧
    (∀ v : CmpVal, get_not_equal_to_selectivity_v h p v = h.min_frequency * 0.9) ∧
    (∀ i : ℤ, get_less_than_selectivity_v h p (.ci i) = h.min_frequency * 0.3 ∧
      get_greater_than_selectivity_v h p (.ci i) = h.min_frequency * 0.3) ∧
    (∀ q : ℚ, get_less_than_selectivity_v h p (.cr q) = h.min_frequency * 0.3 ∧
      get_greater_than_selectivity_v h p (.cr q) = h.min_frequency * 0.3) ∧
    (∀ s : String, get_less_than_selectivity_v h p (.cs s) = h.min_frequency * 0.3 ∧
      get_greater_than_selectivity_v h p (.cs s) = h.min_frequency * 0.3) ∧
    (∀ b : Bool, get_less_than_selectivity_v h p (.cb b) = h.min_frequency * 0.5 ∧
      get_greater_than_selectivity_v h p (.cb b) = h.min_frequency * 0.5) ∧
    (get_selectivity_no_comparands h "json_value" p .IS_NOT_NULL =
        some (h.min_frequency * 0.8) ∧
      get_selectivity_no_comparands h "json_value" p .IS_NULL =
        some (1 - h.min_frequency * 0.8)) ∧
    (∀ fn : String, fn ≠ "json_value" →
      get_selectivity_no_comparands h fn p .IS_NOT_NULL = some h.min_frequency ∧
      get_selectivity_no_comparands h fn p .IS_NULL = some (1 - h.min_frequency)) := by
  refine ⟨?_, ?_, ?_, ?_, ?_, ?_, ?_, ?_⟩
  · intro hmiss2 v
    simp only [get_equal_to_selectivity_v, hmiss, lookup_bucket_nov, hmiss2]
  · intro v
    simp only [get_not_equal_to_selectivity_v, hmiss]
  · intro i
    constructor <;>
      simp only [get_less_than_selectivity_v, get_greater_than_selectivity_v,
        lookup_bucket_typed, lookup_bucket_int, hmiss]
  · intro q
    constructor <;>
      simp only [get_less_than_selectivity_v, get_greater_than_selectivity_v,
        lookup_bucket_typed, lookup_bucket_float, hmiss]
  · intro s
    constructor <;>
      simp only [get_less_than_selectivity_v, get_greater_than_selectivity_v,
        lookup_bucket_typed, lookup_bucket_string, hmiss]
  · intro b
    constructor <;>
      simp only [get_less_than_selectivity_v, get_greater_than_selectivity_v,
        lookup_bucket_typed, lookup_bucket_bool, hmiss]
  · constructor <;>
      simp [get_selectivity_no_comparands, get_not_eq_null_selectivity, hmiss]
  · intro fn hfn
    constructor <;>
      simp only [get_selectivity_no_comparands, if_neg hfn,
        get_exists_selectivity, hmiss]

/-- C2 (amended, witness): the amended constants evaluated on the empty
histogram with `min_frequency = 0.13` and path `p_num`. -/
theorem C2_amended_witness :
    (find_bucket ⟨[], 13/100⟩ (strip_type_suffix "p_num") = none →
      ∀ v : CmpVal,
        get_equal_to_selectivity_v ⟨[], 13/100⟩ "p_num" v =
          (⟨[], 13/100⟩ : Json_flex).min_frequency * 0.1) ∧
    (∀ v : CmpVal,
      get_not_equal_to_selectivity_v ⟨[], 13/100⟩ "p_num" v =
        (⟨[], 13/100⟩ : Json_flex).min_frequency * 0.9) ∧
    (∀ i : ℤ,
      get_less_than_selectivity_v ⟨[], 13/100⟩ "p_num" (.ci i) =
          (⟨[], 13/100⟩ : Json_flex).min_frequency * 0.3 ∧
        get_greater_than_selectivity_v ⟨[], 13/100⟩ "p_num" (.ci i) =
          (⟨[], 13/100⟩ : Json_flex).min_frequency * 0.3) ∧
    (∀ q : ℚ,
      get_less_than_selectivity_v ⟨[], 13/100⟩ "p_num" (.cr q) =
          (⟨[], 13/100⟩ : Json_flex).min_frequency * 0.3 ∧
        get_greater_than_selectivity_v ⟨[], 13/100⟩ "p_num" (.cr q) =
          (⟨[], 13/100⟩ : Json_flex).min_frequency * 0.3) ∧
    (∀ s : String,
      get_less_than_selectivity_v ⟨[], 13/100⟩ "p_num" (.cs s) =
          (⟨[], 13/100⟩ : Json_flex).min_frequency * 0.3 ∧
        get_greater_than_selectivity_v ⟨[], 13/100⟩ "p_num" (.cs s) =
          (⟨[], 13/100⟩ : Json_flex).min_frequency * 0.3) ∧
    (∀ b : Bool,
      get_less_than_selectivity_v ⟨[], 13/100⟩ "p_num" (.cb b) =
          (⟨[], 13/100⟩ : Json_flex).min_frequency * 0.5 ∧
        get_greater_than_selectivity_v ⟨[], 13/100⟩ "p_num" (.cb b) =
          (⟨[], 13/100⟩ : Json_flex).min_frequency * 0.5) ∧
    (get_selectivity_no_comparands ⟨[], 13/100⟩ "json_value" "p_num" .IS_NOT_NULL =
        some ((⟨[], 13/100⟩ : Json_flex).min_frequency * 0.8) ∧
      get_selectivity_no_comparands ⟨[], 13/100⟩ "json_value" "p_num" .IS_NULL =
        some (1 - (⟨[], 13/100⟩ : Json_flex).min_frequency * 0.8)) ∧
    (∀ fn : String, fn ≠ "json_value" →
      get_selectivity_no_comparands ⟨[], 13/100⟩ fn "p_num" .IS_NOT_NULL =
          some (⟨[], 13/100⟩ : Json_flex).min_frequency ∧
        get_selectivity_no_comparands ⟨[], 13/100⟩ fn "p_num" .IS_NULL =
          some (1 - (⟨[], 13/100⟩ : Json_flex).min_frequency)) :=
  C2_amended ⟨[], 13/100⟩ "p_num" rfl

/-- C6: when the queried path has a bucket, the typed equality and
not-equals estimates sum exactly to the base frequency of that bucket,
`frequency * (1 - null_values)`, for every comparand type. -/
theorem C6_eq_plus_neq (h : Json_flex) (path : String) (b : JsonBucket) (v : CmpVal)
    (hf : find_bucket h path = some b) :
    get_equal_to_selectivity_v h path v + get_not_equal_to_selectivity_v h path v =
      b.frequency * (1 - b.null_values) := by
  simp only [get_equal_to_selectivity_v, get_not_equal_to_selectivity_v, hf]
  ring

/-- C6 (witness): evaluated on a one-bucket histogram. -/
theorem C6_eq_plus_neq_witness :
    get_equal_to_selectivity_v ⟨[⟨"p", 1/2, 1/10, none, none, none, .UNKNOWN, none⟩], 1/2⟩
        "p" (.ci 3) +
      get_not_equal_to_selectivity_v ⟨[⟨"p", 1/2, 1/10, none, none, none, .UNKNOWN, none⟩], 1/2⟩
        "p" (.ci 3) =
      (1/2 : ℚ) * (1 - 1/10) :=
  C6_eq_plus_neq ⟨[⟨"p", 1/2, 1/10, none, none, none, .UNKNOWN, none⟩], 1/2⟩ "p"
    ⟨"p", 1/2, 1/10, none, none, none, .UNKNOWN, none⟩ (.ci 3) rfl

/-- C7: the IS NULL / IS NOT NULL dispatch: under `json_value` the estimates
are `1 - not_eq_null(path)` and `not_eq_null(path)`; under any other function
name they are `1 - exists(path)` and `exists(path)`; on a found bucket
`not_eq_null` is `frequency * (1 - null_values)` and `exists` is `frequency`;
and the two estimates of any IS NULL / IS NOT NULL pair sum to at most 1. -/
theorem C7_is_null_dispatch :
    (∀ (h : Json_flex) (p : String),
      get_selectivity_no_comparands h "json_value" p .IS_NULL =
          some (1 - get_not_eq_null_selectivity h p) ∧
        get_selectivity_no_comparands h "json_value" p .IS_NOT_NULL =
          some (get_not_eq_null_selectivity h p)) ∧
    (∀ (h : Json_flex) (fn p : String), fn ≠ "json_value" →
      get_selectivity_no_comparands h fn p .IS_NULL =
          some (1 - get_exists_selectivity h p) ∧
        get_selectivity_no_comparands h fn p .IS_NOT_NULL =
          some (get_exists_selectivity h p)) ∧
    (∀ (h : Json_flex) (p : String) (b : JsonBucket), find_bucket h p = some b →
      get_not_eq_null_selectivity h p = b.frequency * (1 - b.null_values) ∧
        get_exists_selectivity h p = b.frequency) ∧
    (∀ (h : Json_flex) (fn p : String) (s₁ s₂ : ℚ),
      get_selectivity_no_comparands h fn p .IS_NULL = some s₁ →
      get_selectivity_no_comparands h fn p .IS_NOT_NULL = some s₂ →
      s₁ + s₂ ≤ 1) := by
  refine ⟨?_, ?_, ?_, ?_⟩
  · intro h p
    exact ⟨rfl, rfl⟩
  · intro h fn p hfn
    constructor <;> simp only [get_selectivity_no_comparands, if_neg hfn]
  · intro h p b hf
    constructor <;> simp only [get_not_eq_null_selectivity, get_exists_selectivity, hf]
  · intro h fn p s₁ s₂ h1 h2
    by_cases hfn : fn = "json_value"
    · simp [get_selectivity_no_comparands, hfn] at h1 h2
      linarith
    · simp [get_selectivity_no_comparands, hfn] at h1 h2
      linarith

/-- C7 (witness): instantiated on the empty histogram, the `json_value`
dispatch, the `json_extract` dispatch, a found bucket, and the sum bound. -/
theorem C7_is_null_dispatch_witness :
    (get_selectivity_no_comparands ⟨[], 1⟩ "json_value" "p" .IS_NULL =
        some (1 - get_not_eq_null_selectivity ⟨[], 1⟩ "p") ∧
      get_selectivity_no_comparands ⟨[], 1⟩ "json_value" "p" .IS_NOT_NULL =
        some (get_not_eq_null_selectivity ⟨[], 1⟩ "p")) ∧
    (get_selectivity_no_comparands ⟨[], 1⟩ "json_extract" "p" .IS_NULL =
        some (1 - get_exists_selectivity ⟨[], 1⟩ "p") ∧
      get_selectivity_no_comparands ⟨[], 1⟩ "json_extract" "p" .IS_NOT_NULL =
        some (get_exists_selectivity ⟨[], 1⟩ "p")) ∧
    (get_not_eq_null_selectivity ⟨[⟨"p", 1/2, 1/10, none, none, none, .UNKNOWN, none⟩], 1⟩ "p" =
        (1/2 : ℚ) * (1 - 1/10) ∧
      get_exists_selectivity ⟨[⟨"p", 1/2, 1/10, none, none, none, .UNKNOWN, none⟩], 1⟩ "p" =
        (1/2 : ℚ)) ∧
    ((1 - get_exists_selectivity ⟨[], 1⟩ "p") + get_exists_selectivity ⟨[], 1⟩ "p" ≤ 1) :=
  ⟨C7_is_null_dispatch.1 ⟨[], 1⟩ "p",
   C7_is_null_dispatch.2.1 ⟨[], 1⟩ "json_extract" "p" (by decide),
   C7_is_null_dispatch.2.2.1 ⟨[⟨"p", 1/2, 1/10, none, none, none, .UNKNOWN, none⟩], 1⟩ "p"
     ⟨"p", 1/2, 1/10, none, none, none, .UNKNOWN, none⟩ rfl,
   C7_is_null_dispatch.2.2.2 ⟨[], 1⟩ "json_extract" "p" _ _ rfl rfl⟩

/-- C9: BETWEEN over int, real and string constant comparands with the lower
comparand first (the asserted precondition) returns exactly
`1 - lt(a) - gt(b)`, with no clipping. -/
theorem C9_between (h : Json_flex) (p : String) :
    (∀ a b : ℤ, a ≤ b →
      multi_val_dispatch h p .BETWEEN (.ints [a, b]) =
        1 - get_less_than_selectivity_v h p (.ci a) -
          get_greater_than_selectivity_v h p (.ci b)) ∧
    (∀ a b : ℚ, a ≤ b →
      multi_val_dispatch h p .BETWEEN (.reals [a, b]) =
        1 - get_less_than_selectivity_v h p (.cr a) -
          get_greater_than_selectivity_v h p (.cr b)) ∧
    (∀ a b : String, stringcmp a b ≤ 0 →
      multi_val_dispatch h p .BETWEEN (.strs [a, b]) =
        1 - get_less_than_selectivity_v h p (.cs a) -
          get_greater_than_selectivity_v h p (.cs b)) := by
  refine ⟨?_, ?_, ?_⟩ <;> intro a b _hab <;>
    simp only [multi_val_dispatch] <;> ring

/-- C9 (witness): BETWEEN evaluated on the empty histogram at concrete
comparand pairs of each of the three kinds. -/
theorem C9_between_witness :
    (multi_val_dispatch ⟨[], 1⟩ "p" .BETWEEN (.ints [1, 2]) =
      1 - get_less_than_selectivity_v ⟨[], 1⟩ "p" (.ci 1) -
        get_greater_than_selectivity_v ⟨[], 1⟩ "p" (.ci 2)) ∧
    (multi_val_dispatch ⟨[], 1⟩ "p" .BETWEEN (.reals [1/2, 3/2]) =
      1 - get_less_than_selectivity_v ⟨[], 1⟩ "p" (.cr (1/2)) -
        get_greater_than_selectivity_v ⟨[], 1⟩ "p" (.cr (3/2))) ∧
    (multi_val_dispatch ⟨[], 1⟩ "p" .BETWEEN (.strs ["aa", "bb"]) =
      1 - get_less_than_selectivity_v ⟨[], 1⟩ "p" (.cs "aa") -
        get_greater_than_selectivity_v ⟨[], 1⟩ "p" (.cs "bb")) :=
  ⟨(C9_between ⟨[], 1⟩ "p").1 1 2 (by decide),
   (C9_between ⟨[], 1⟩ "p").2.1 (1/2) (3/2) (by norm_num),
   (C9_between ⟨[], 1⟩ "p").2.2 "aa" "bb" (by decide)⟩

/-- C10: a typed equality lookup on a missing path strips the trailing
type-suffix token at the last `'_'` and returns the untyped equality
estimate of the stripped path; the typed not-equals, less-than and
greater-than lookups do no stripping and return the missing-path constants
(`0.9`, `0.3` — `0.5` for booleans — times `min_frequency`).  The final
conjunct pins down the stripping itself. -/
theorem C10_eq_strip_fallback (h : Json_flex) (p : String)
    (hmiss : find_bucket h p = none) :
    (∀ v : CmpVal, get_equal_to_selectivity_v h p v =
        (lookup_bucket_nov h (strip_type_suffix p)).eq_frequency) ∧
    (∀ v : CmpVal, get_not_equal_to_selectivity_v h p v = h.min_frequency * 0.9) ∧
    (∀ i : ℤ, get_less_than_selectivity_v h p (.ci i) = h.min_frequency * 0.3 ∧
      get_greater_than_selectivity_v h p (.ci i) = h.min_frequency * 0.3) ∧
    (∀ q : ℚ, get_less_than_selectivity_v h p (.cr q) = h.min_frequency * 0.3 ∧
      get_greater_than_selectivity_v h p (.cr q) = h.min_frequency * 0.3) ∧
    (∀ s : String, get_less_than_selectivity_v h p (.cs s) = h.min_frequency * 0.3 ∧
      get_greater_than_selectivity_v h p (.cs s) = h.min_frequency * 0.3) ∧
    (∀ b : Bool, get_less_than_selectivity_v h p (.cb b) = h.min_frequency * 0.5 ∧
      get_greater_than_selectivity_v h p (.cb b) = h.min_frequency * 0.5) ∧
    (∀ (pre : String) (sfx : List Char), '_' ∉ sfx →
      strip_type_suffix ⟨pre.data ++ '_' :: sfx⟩ = pre) := by
  refine ⟨?_, ?_, ?_, ?_, ?_, ?_, ?_⟩
  · intro v
    simp only [get_equal_to_selectivity_v, hmiss]
  · intro v
    simp only [get_not_equal_to_selectivity_v, hmiss]
  · intro i
    constructor <;>
      simp only [get_less_than_selectivity_v, get_greater_than_selectivity_v,
        lookup_bucket_typed, lookup_bucket_int, hmiss]
  · intro q
    constructor <;>
      simp only [get_less_than_selectivity_v, get_greater_than_selectivity_v,
        lookup_bucket_typed, lookup_bucket_float, hmiss]
  · intro s
    constructor <;>
      simp only [get_less_than_selectivity_v, get_greater_than_selectivity_v,
        lookup_bucket_typed, lookup_bucket_string, hmiss]
  · intro b
    constructor <;>
      simp only [get_less_than_selectivity_v, get_greater_than_selectivity_v,
        lookup_bucket_typed, lookup_bucket_bool, hmiss]
  · intro pre sfx hs
    exact strip_type_suffix_append pre hs

/-- C10 (witness): evaluated on a one-bucket histogram whose only bucket
lives at the stripped path `aakey`, queried at the suffixed path
`aakey_str`. -/
theorem C10_eq_strip_fallback_witness :
    (∀ v : CmpVal,
      get_equal_to_selectivity_v
          ⟨[⟨"aakey", 1/2, 0, none, none, none, .UNKNOWN, none⟩], 13/100⟩ "aakey_str" v =
        (lookup_bucket_nov ⟨[⟨"aakey", 1/2, 0, none, none, none, .UNKNOWN, none⟩], 13/100⟩
          (strip_type_suffix "aakey_str")).eq_frequency) ∧
    (∀ v : CmpVal,
      get_not_equal_to_selectivity_v
          ⟨[⟨"aakey", 1/2, 0, none, none, none, .UNKNOWN, none⟩], 13/100⟩ "aakey_str" v =
        (⟨[⟨"aakey", 1/2, 0, none, none, none, .UNKNOWN, none⟩], 13/100⟩ : Json_flex).min_frequency * 0.9) ∧
    (∀ i : ℤ,
      get_less_than_selectivity_v
            ⟨[⟨"aakey", 1/2, 0, none, none, none, .UNKNOWN, none⟩], 13/100⟩ "aakey_str" (.ci i) =
          (⟨[⟨"aakey", 1/2, 0, none, none, none, .UNKNOWN, none⟩], 13/100⟩ : Json_flex).min_frequency * 0.3 ∧
        get_greater_than_selectivity_v
            ⟨[⟨"aakey", 1/2, 0, none, none, none, .UNKNOWN, none⟩], 13/100⟩ "aakey_str" (.ci i) =
          (⟨[⟨"aakey", 1/2, 0, none, none, none, .UNKNOWN, none⟩], 13/100⟩ : Json_flex).min_frequency * 0.3) ∧
    (∀ q : ℚ,
      get_less_than_selectivity_v
            ⟨[⟨"aakey", 1/2, 0, none, none, none, .UNKNOWN, none⟩], 13/100⟩ "aakey_str" (.cr q) =
          (⟨[⟨"aakey", 1/2, 0, none, none, none, .UNKNOWN, none⟩], 13/100⟩ : Json_flex).min_frequency * 0.3 ∧
        get_greater_than_selectivity_v
            ⟨[⟨"aakey", 1/2, 0, none, none, none, .UNKNOWN, none⟩], 13/100⟩ "aakey_str" (.cr q) =
          (⟨[⟨"aakey", 1/2, 0, none, none, none, .UNKNOWN, none⟩], 13/100⟩ : Json_flex).min_frequency * 0.3) ∧
    (∀ s : String,
      get_less_than_selectivity_v
            ⟨[⟨"aakey", 1/2, 0, none, none, none, .UNKNOWN, none⟩], 13/100⟩ "aakey_str" (.cs s) =
          (⟨[⟨"aakey", 1/2, 0, none, none, none, .UNKNOWN, none⟩], 13/100⟩ : Json_flex).min_frequency * 0.3 ∧
        get_greater_than_selectivity_v
            ⟨[⟨"aakey", 1/2, 0, none, none, none, .UNKNOWN, none⟩], 13/100⟩ "aakey_str" (.cs s) =
          (⟨[⟨"aakey", 1/2, 0, none, none, none, .UNKNOWN, none⟩], 13/100⟩ : Json_flex).min_frequency * 0.3) ∧
    (∀ b : Bool,
      get_less_than_selectivity_v
            ⟨[⟨"aakey", 1/2, 0, none, none, none, .UNKNOWN, none⟩], 13/100⟩ "aakey_str" (.cb b) =
          (⟨[⟨"aakey", 1/2, 0, none, none, none, .UNKNOWN, none⟩], 13/100⟩ : Json_flex).min_frequency * 0.5 ∧
        get_greater_than_selectivity_v
            ⟨[⟨"aakey", 1/2, 0, none, none, none, .UNKNOWN, none⟩], 13/100⟩ "aakey_str" (.cb b) =
          (⟨[⟨"aakey", 1/2, 0, none, none, none, .UNKNOWN, none⟩], 13/100⟩ : Json_flex).min_frequency * 0.5) ∧
    (∀ (pre : String) (sfx : List Char), '_' ∉ sfx →
      strip_type_suffix ⟨pre.data ++ '_' :: sfx⟩ = pre) :=
  C10_eq_strip_fallback
    ⟨[⟨"aakey", 1/2, 0, none, none, none, .UNKNOWN, none⟩], 13/100⟩ "aakey_str" rfl

/-- C3 (counterexample): in an integer bucket with a singleton sub-histogram
carrying `rest_mean_frequency = 0.1`, the equality estimate at a comparand
that stops the scan at the first greater entry is 0, not
`base * rest_mean_frequency` as claimed (bucket `a_num`, frequency 1/2, no
nulls, entries (1, 1/4) and (5, 1/4), comparand 3). -/
theorem C3_counterexample :
    (lookup_bucket_int
        ⟨[⟨"a_num", 1/2, 0, some (.pInt 0), some (.pInt 10), some 3, .INT,
           some (.igram ⟨.singleton [⟨1, 1/4⟩, ⟨5, 1/4⟩], some (1/10)⟩)⟩], 1⟩
        "a_num" 3).eq_frequency = 0 ∧
    ((1/2 : ℚ) * (1 - 0)) * (1/10) ≠ 0 := by
  constructor
  · rfl
  · norm_num

/-- C3 (amended): in a singleton sub-histogram scan, reaching the first
entry greater than the comparand gives, for string comparands, exactly the
claimed `eq = base * rest_mean_frequency.getD 0`, `lt = base * cumulative`,
`gt = base * (1 - cumulative)`, and running past the last entry gives
`eq = base * rest_mean_frequency.getD 0`, `lt = base`, `gt = 0`; but for int
and float comparands the first-greater case returns `eq = 0` (the
`rest_mean_frequency` is never consulted) and the past-the-end case falls
through to the `ndv` defaults (`ndv_default`). -/
theorem C3_amended :
    (∀ (h : Json_flex) (p : String) (bucket : JsonBucket) (mn mx cmp : ℤ)
       (E1 : List (SingleBucket ℤ)) (e : SingleBucket ℤ) (E2 : List (SingleBucket ℤ))
       (rest : Option ℚ),
      find_bucket h p = some bucket → bucket.values_type = .INT →
      bucket.min_val = some (.pInt mn) → bucket.max_val = some (.pInt mx) →
      mn ≤ cmp → cmp ≤ mx →
      bucket.histogram = some (.igram ⟨.singleton (E1 ++ e :: E2), rest⟩) →
      (∀ x ∈ E1, x.value < cmp) → cmp < e.value →
      lookup_bucket_int h p cmp =
        ⟨0, (E1.map (fun x => x.frequency)).sum * (bucket.frequency * (1 - bucket.null_values)),
         (1 - (E1.map (fun x => x.frequency)).sum) *
           (bucket.frequency * (1 - bucket.null_values))⟩) ∧
    (∀ (h : Json_flex) (p : String) (bucket : JsonBucket) (mn mx cmp : ℤ)
       (E : List (SingleBucket ℤ)) (rest : Option ℚ),
      find_bucket h p = some bucket → bucket.values_type = .INT →
      bucket.min_val = some (.pInt mn) → bucket.max_val = some (.pInt mx) →
      mn ≤ cmp → cmp ≤ mx →
      bucket.histogram = some (.igram ⟨.singleton E, rest⟩) →
      (∀ x ∈ E, x.value < cmp) →
      lookup_bucket_int h p cmp =
        ndv_default (bucket.frequency * (1 - bucket.null_values)) bucket.ndv) ∧
    (∀ (h : Json_flex) (p : String) (bucket : JsonBucket) (mn mx cmp : ℚ)
       (E1 : List (SingleBucket ℚ)) (e : SingleBucket ℚ) (E2 : List (SingleBucket ℚ))
       (rest : Option ℚ),
      find_bucket h p = some bucket → bucket.values_type = .FLOAT →
      bucket.min_val = some (.pFloat mn) → bucket.max_val = some (.pFloat mx) →
      mn ≤ cmp → cmp ≤ mx →
      bucket.histogram = some (.fgram ⟨.singleton (E1 ++ e :: E2), rest⟩) →
      (∀ x ∈ E1, x.value < cmp) → cmp < e.value →
      lookup_bucket_float h p cmp =
        ⟨0, (E1.map (fun x => x.frequency)).sum * (bucket.frequency * (1 - bucket.null_values)),
         (1 - (E1.map (fun x => x.frequency)).sum) *
           (bucket.frequency * (1 - bucket.null_values))⟩) ∧
    (∀ (h : Json_flex) (p : String) (bucket : JsonBucket) (mn mx cmp : ℚ)
       (E : List (SingleBucket ℚ)) (rest : Option ℚ),
      find_bucket h p = some bucket → bucket.values_type = .FLOAT →
      bucket.min_val = some (.pFloat mn) → bucket.max_val = some (.pFloat mx) →
      mn ≤ cmp → cmp ≤ mx →
      bucket.histogram = some (.fgram ⟨.singleton E, rest⟩) →
      (∀ x ∈ E, x.value < cmp) →
      lookup_bucket_float h p cmp =
        ndv_default (bucket.frequency * (1 - bucket.null_values)) bucket.ndv) ∧
    (∀ (h : Json_flex) (p : String) (bucket : JsonBucket) (mn mx : String) (cmp : String)
       (E1 : List (SingleBucket String)) (e : SingleBucket String)
       (E2 : List (SingleBucket String)) (rest : Option ℚ),
      find_bucket h p = some bucket →
      bucket.min_val = some (.pString mn) → bucket.max_val = some (.pString mx) →
      ¬ stringcmp mn cmp > 0 → ¬ stringcmp mx cmp < 0 →
      bucket.histogram = some (.sgram ⟨.singleton (E1 ++ e :: E2), rest⟩) →
      (∀ x ∈ E1, stringcmp x.value cmp < 0) → stringcmp e.value cmp > 0 →
      lookup_bucket_string h p cmp =
        ⟨rest.getD 0 * (bucket.frequency * (1 - bucket.null_values)),
         (E1.map (fun x => x.frequency)).sum * (bucket.frequency * (1 - bucket.null_values)),
         (1 - (E1.map (fun x => x.frequency)).sum) *
           (bucket.frequency * (1 - bucket.null_values))⟩) ∧
    (∀ (h : Json_flex) (p : String) (bucket : JsonBucket) (mn mx : String) (cmp : String)
       (E : List (SingleBucket String)) (rest : Option ℚ),
      find_bucket h p = some bucket →
      bucket.min_val = some (.pString mn) → bucket.max_val = some (.pString mx) →
      ¬ stringcmp mn cmp > 0 → ¬ stringcmp mx cmp < 0 →
      bucket.histogram = some (.sgram ⟨.singleton E, rest⟩) →
      (∀ x ∈ E, stringcmp x.value cmp < 0) →
      lookup_bucket_string h p cmp =
        ⟨rest.getD 0 * (bucket.frequency * (1 - bucket.null_values)),
         bucket.frequency * (1 - bucket.null_values), 0⟩) := by
  refine ⟨?_, ?_, ?_, ?_, ?_, ?_⟩
  · intro h p bucket mn mx cmp E1 e E2 rest hf hvt hmin hmax hlo hhi hhist hE1 he
    have hvtne : ¬ bucket.values_type = BucketValueType.FLOAT := by rw [hvt]; decide
    simp only [lookup_bucket_int, hf, hvtne, if_neg, ite_false,
      lookup_found_int, hmin, hmax, hhist, JsonPrim.getInt]
    rw [if_neg (by omega : ¬ mn > cmp), if_neg (by omega : ¬ mx < cmp)]
    rw [singleScanInt_first_greater _ _ E1 e E2 0 hE1 he]
    simp
  · intro h p bucket mn mx cmp E rest hf hvt hmin hmax hlo hhi hhist hE
    have hvtne : ¬ bucket.values_type = BucketValueType.FLOAT := by rw [hvt]; decide
    simp only [lookup_bucket_int, hf, hvtne, if_neg, ite_false,
      lookup_found_int, hmin, hmax, hhist, JsonPrim.getInt]
    rw [if_neg (by omega : ¬ mn > cmp), if_neg (by omega : ¬ mx < cmp)]
    rw [singleScanInt_past_end _ _ E 0 hE]
  · intro h p bucket mn mx cmp E1 e E2 rest hf hvt hmin hmax hlo hhi hhist hE1 he
    have hvtne : ¬ (bucket.values_type = BucketValueType.INT ∧ cmp.den = 1) := by
      rw [hvt]; rintro ⟨hc, -⟩; exact absurd hc (by decide)
    simp only [lookup_bucket_float, hf, lookup_found_float, hmin, hmax,
      JsonPrim.getFloat, hvtne, if_neg, ite_false, hhist]
    rw [if_neg (not_lt.mpr hlo), if_neg (not_lt.mpr hhi)]
    rw [singleScanFloat_first_greater _ _ E1 e E2 0 hE1 he]
    simp
  · intro h p bucket mn mx cmp E rest hf hvt hmin hmax hlo hhi hhist hE
    have hvtne : ¬ (bucket.values_type = BucketValueType.INT ∧ cmp.den = 1) := by
      rw [hvt]; rintro ⟨hc, -⟩; exact absurd hc (by decide)
    simp only [lookup_bucket_float, hf, lookup_found_float, hmin, hmax,
      JsonPrim.getFloat, hvtne, if_neg, ite_false, hhist]
    rw [if_neg (not_lt.mpr hlo), if_neg (not_lt.mpr hhi)]
    rw [singleScanFloat_past_end _ _ E 0 hE]
  · intro h p bucket mn mx cmp E1 e E2 rest hf hmin hmax hlo hhi hhist hE1 he
    simp only [lookup_bucket_string, hf, lookup_found_string, hmin, hmax,
      JsonPrim.getStr, hhist]
    rw [if_neg hlo, if_neg hhi]
    rw [singleScanStr_first_greater _ _ _ E1 e E2 0 hE1 he]
    simp
  · intro h p bucket mn mx cmp E rest hf hmin hmax hlo hhi hhist hE
    simp only [lookup_bucket_string, hf, lookup_found_string, hmin, hmax,
      JsonPrim.getStr, hhist]
    rw [if_neg hlo, if_neg hhi]
    rw [singleScanStr_past_end _ _ _ E 0 hE]

/-- Concrete three-bucket histogram (int, float, string, each with a
singleton sub-histogram) used to instantiate the amended C3 statement. -/
def C3hist : Json_flex :=
  ⟨[⟨"a_num", 1/2, 0, some (.pInt 0), some (.pInt 10), some 3, .INT,
     some (.igram ⟨.singleton [⟨1, 1/4⟩, ⟨5, 1/4⟩], some (1/10)⟩)⟩,
    ⟨"f_num", 1/2, 0, some (.pFloat 0), some (.pFloat 10), some 3, .FLOAT,
     some (.fgram ⟨.singleton [⟨1, 1/4⟩, ⟨5, 1/4⟩], none⟩)⟩,
    ⟨"s_str", 1/2, 0, some (.pString "aa"), some (.pString "zz"), some 3, .STRING,
     some (.sgram ⟨.singleton [⟨"bb", 1/4⟩, ⟨"dd", 1/4⟩], some (1/10)⟩)⟩], 1⟩

/-- C3 (amended, witness): the six amended scan behaviours evaluated on
`C3hist` at concrete comparands. -/
theorem C3_amended_witness :
    (lookup_bucket_int C3hist "a_num" 3 =
      ⟨0, (([⟨1, 1/4⟩] : List (SingleBucket ℤ)).map (fun x => x.frequency)).sum *
            (1/2 * (1 - 0)),
       (1 - (([⟨1, 1/4⟩] : List (SingleBucket ℤ)).map (fun x => x.frequency)).sum) *
            (1/2 * (1 - 0))⟩) ∧
    (lookup_bucket_int C3hist "a_num" 7 = ndv_default (1/2 * (1 - 0)) (some 3)) ∧
    (lookup_bucket_float C3hist "f_num" 3 =
      ⟨0, (([⟨1, 1/4⟩] : List (SingleBucket ℚ)).map (fun x => x.frequency)).sum *
            (1/2 * (1 - 0)),
       (1 - (([⟨1, 1/4⟩] : List (SingleBucket ℚ)).map (fun x => x.frequency)).sum) *
            (1/2 * (1 - 0))⟩) ∧
    (lookup_bucket_float C3hist "f_num" 7 = ndv_default (1/2 * (1 - 0)) (some 3)) ∧
    (lookup_bucket_string C3hist "s_str" "cc" =
      ⟨(some (1/10) : Option ℚ).getD 0 * (1/2 * (1 - 0)),
       (([⟨"bb", 1/4⟩] : List (SingleBucket String)).map (fun x => x.frequency)).sum *
            (1/2 * (1 - 0)),
       (1 - (([⟨"bb", 1/4⟩] : List (SingleBucket String)).map (fun x => x.frequency)).sum) *
            (1/2 * (1 - 0))⟩) ∧
    (lookup_bucket_string C3hist "s_str" "ee" =
      ⟨(some (1/10) : Option ℚ).getD 0 * (1/2 * (1 - 0)), 1/2 * (1 - 0), 0⟩) := by
  refine ⟨?_, ?_, ?_, ?_, ?_, ?_⟩
  · exact C3_amended.1 C3hist "a_num" _ 0 10 3 [⟨1, 1/4⟩] ⟨5, 1/4⟩ [] (some (1/10))
      rfl rfl rfl rfl (by decide) (by decide) rfl
      (by intro x hx; simp only [List.mem_singleton] at hx; subst hx; decide) (by decide)
  · exact C3_amended.2.1 C3hist "a_num" _ 0 10 7 [⟨1, 1/4⟩, ⟨5, 1/4⟩] (some (1/10))
      rfl rfl rfl rfl (by decide) (by decide) rfl
      (by intro x hx; simp only [List.mem_cons, List.not_mem_nil, or_false] at hx
          rcases hx with rfl | rfl <;> decide)
  · exact C3_amended.2.2.1 C3hist "f_num" _ 0 10 3 [⟨1, 1/4⟩] ⟨5, 1/4⟩ [] none
      rfl rfl rfl rfl (by norm_num) (by norm_num) rfl
      (by intro x hx; simp only [List.mem_singleton] at hx; subst hx; norm_num)
      (by norm_num)
  · exact C3_amended.2.2.2.1 C3hist "f_num" _ 0 10 7 [⟨1, 1/4⟩, ⟨5, 1/4⟩] none
      rfl rfl rfl rfl (by norm_num) (by norm_num) rfl
      (by intro x hx; simp only [List.mem_cons, List.not_mem_nil, or_false] at hx
          rcases hx with rfl | rfl <;> norm_num)
  · exact C3_amended.2.2.2.2.1 C3hist "s_str" _ "aa" "zz" "cc" [⟨"bb", 1/4⟩] ⟨"dd", 1/4⟩ []
      (some (1/10)) rfl rfl rfl (by decide) (by decide) rfl
      (by intro x hx; simp only [List.mem_singleton] at hx; subst hx; decide) (by decide)
  · exact C3_amended.2.2.2.2.2 C3hist "s_str" _ "aa" "zz" "ee" [⟨"bb", 1/4⟩, ⟨"dd", 1/4⟩]
      (some (1/10)) rfl rfl rfl (by decide) (by decide) rfl
      (by intro x hx; simp only [List.mem_cons, List.not_mem_nil, or_false] at hx
          rcases hx with rfl | rfl <;> decide)

/-- C4 (counterexample): the IN-list estimate is clipped against the raw
bucket `frequency`, not against `base = frequency * (1 - null_values)`.
Bucket `b_num` with frequency 2/5 and null fraction 1/2 (base 1/5), entries
(1, 4/5) and (2, 7/10): IN(1,2) returns min(2/5, 3/10) = 3/10, while the
claim requires min(1/5, 3/10) = 1/5. -/
theorem C4_counterexample :
    multi_val_dispatch
        ⟨[⟨"b_num", 2/5, 1/2, some (.pInt 0), some (.pInt 10), some 2, .INT,
           some (.igram ⟨.singleton [⟨1, 4/5⟩, ⟨2, 7/10⟩], none⟩)⟩], 1⟩
        "b_num" .IN_LIST (.ints [1, 2]) = 3/10 ∧
    (3/10 : ℚ) ≠ min ((2/5) * (1 - (1/2 : ℚ))) (3/10) := by
  constructor
  · show (min (2/5 : ℚ)
        (0 + (2/5 * (1 - 1/2)) * (4/5) + (2/5 * (1 - 1/2)) * (7/10))) = 3/10
    norm_num
  · norm_num

/-- C4 (amended): for a path with a bucket, IN over int, string or boolean
constants returns `min(frequency, Σ eq(x))` — the clip uses the raw bucket
`frequency`, not `base`; NOT_IN returns `base − IN` with
`base = frequency * (1 - null_values)`; and a one-element IN list equals
`min(frequency, EQ(x))`, hence equals `EQ(x)` exactly when
`EQ(x) ≤ frequency`. -/
theorem C4_amended (h : Json_flex) (p : String) (bucket : JsonBucket)
    (hf : find_bucket h p = some bucket) :
    (∀ xs : List ℤ, multi_val_dispatch h p .IN_LIST (.ints xs) =
      min bucket.frequency
        (xs.foldl (fun acc x => acc + get_equal_to_selectivity_v h p (.ci x)) 0)) ∧
    (∀ xs : List String, multi_val_dispatch h p .IN_LIST (.strs xs) =
      min bucket.frequency
        (xs.foldl (fun acc x => acc + get_equal_to_selectivity_v h p (.cs x)) 0)) ∧
    (∀ xs : List Bool, multi_val_dispatch h p .IN_LIST (.funcs xs) =
      min bucket.frequency
        (xs.foldl (fun acc x => acc + get_equal_to_selectivity_v h p (.cb x)) 0)) ∧
    (∀ items : CmpItems, multi_val_dispatch h p .NOT_IN_LIST items =
      bucket.frequency * (1 - bucket.null_values) -
        multi_val_dispatch h p .IN_LIST items) ∧
    (∀ x : ℤ, multi_val_dispatch h p .IN_LIST (.ints [x]) =
      min bucket.frequency (get_equal_to_selectivity_v h p (.ci x))) ∧
    (∀ x : ℤ, get_equal_to_selectivity_v h p (.ci x) ≤ bucket.frequency →
      multi_val_dispatch h p .IN_LIST (.ints [x]) =
        get_equal_to_selectivity_v h p (.ci x)) := by
  refine ⟨?_, ?_, ?_, ?_, ?_, ?_⟩
  · intro xs
    simp only [multi_val_dispatch, in_list_selectivity, hf]
  · intro xs
    simp only [multi_val_dispatch, in_list_selectivity, hf]
  · intro xs
    simp only [multi_val_dispatch, in_list_selectivity, hf]
  · intro items
    simp only [multi_val_dispatch, get_not_eq_null_selectivity, hf]
  · intro x
    simp only [multi_val_dispatch, in_list_selectivity, hf, List.foldl_cons,
      List.foldl_nil, zero_add]
  · intro x hle
    simp only [multi_val_dispatch, in_list_selectivity, hf, List.foldl_cons,
      List.foldl_nil, zero_add]
    exact min_eq_right hle

/-- C4 (amended, witness): evaluated on the counterexample histogram. -/
theorem C4_amended_witness :
    (∀ xs : List ℤ,
      multi_val_dispatch
          ⟨[⟨"b_num", 2/5, 1/2, some (.pInt 0), some (.pInt 10), some 2, .INT,
             some (.igram ⟨.singleton [⟨1, 4/5⟩, ⟨2, 7/10⟩], none⟩)⟩], 1⟩
          "b_num" .IN_LIST (.ints xs) =
        min (2/5 : ℚ)
          (xs.foldl (fun acc x => acc +
            get_equal_to_selectivity_v
              ⟨[⟨"b_num", 2/5, 1/2, some (.pInt 0), some (.pInt 10), some 2, .INT,
                 some (.igram ⟨.singleton [⟨1, 4/5⟩, ⟨2, 7/10⟩], none⟩)⟩], 1⟩
              "b_num" (.ci x)) 0)) ∧
    (∀ xs : List String,
      multi_val_dispatch
          ⟨[⟨"b_num", 2/5, 1/2, some (.pInt 0), some (.pInt 10), some 2, .INT,
             some (.igram ⟨.singleton [⟨1, 4/5⟩, ⟨2, 7/10⟩], none⟩)⟩], 1⟩
          "b_num" .IN_LIST (.strs xs) =
        min (2/5 : ℚ)
          (xs.foldl (fun acc x => acc +
            get_equal_to_selectivity_v
              ⟨[⟨"b_num", 2/5, 1/2, some (.pInt 0), some (.pInt 10), some 2, .INT,
                 some (.igram ⟨.singleton [⟨1, 4/5⟩, ⟨2, 7/10⟩], none⟩)⟩], 1⟩
              "b_num" (.cs x)) 0)) ∧
    (∀ xs : List Bool,
      multi_val_dispatch
          ⟨[⟨"b_num", 2/5, 1/2, some (.pInt 0), some (.pInt 10), some 2, .INT,
             some (.igram ⟨.singleton [⟨1, 4/5⟩, ⟨2, 7/10⟩], none⟩)⟩], 1⟩
          "b_num" .IN_LIST (.funcs xs) =
        min (2/5 : ℚ)
          (xs.foldl (fun acc x => acc +
            get_equal_to_selectivity_v
              ⟨[⟨"b_num", 2/5, 1/2, some (.pInt 0), some (.pInt 10), some 2, .INT,
                 some (.igram ⟨.singleton [⟨1, 4/5⟩, ⟨2, 7/10⟩], none⟩)⟩], 1⟩
              "b_num" (.cb x)) 0)) ∧
    (∀ items : CmpItems,
      multi_val_dispatch
          ⟨[⟨"b_num", 2/5, 1/2, some (.pInt 0), some (.pInt 10), some 2, .INT,
             some (.igram ⟨.singleton [⟨1, 4/5⟩, ⟨2, 7/10⟩], none⟩)⟩], 1⟩
          "b_num" .NOT_IN_LIST items =
        (2/5 : ℚ) * (1 - 1/2) -
          multi_val_dispatch
            ⟨[⟨"b_num", 2/5, 1/2, some (.pInt 0), some (.pInt 10), some 2, .INT,
               some (.igram ⟨.singleton [⟨1, 4/5⟩, ⟨2, 7/10⟩], none⟩)⟩], 1⟩
            "b_num" .IN_LIST items) ∧
    (∀ x : ℤ,
      multi_val_dispatch
          ⟨[⟨"b_num", 2/5, 1/2, some (.pInt 0), some (.pInt 10), some 2, .INT,
             some (.igram ⟨.singleton [⟨1, 4/5⟩, ⟨2, 7/10⟩], none⟩)⟩], 1⟩
          "b_num" .IN_LIST (.ints [x]) =
        min (2/5 : ℚ)
          (get_equal_to_selectivity_v
            ⟨[⟨"b_num", 2/5, 1/2, some (.pInt 0), some (.pInt 10), some 2, .INT,
               some (.igram ⟨.singleton [⟨1, 4/5⟩, ⟨2, 7/10⟩], none⟩)⟩], 1⟩
            "b_num" (.ci x))) ∧
    (∀ x : ℤ,
      get_equal_to_selectivity_v
          ⟨[⟨"b_num", 2/5, 1/2, some (.pInt 0), some (.pInt 10), some 2, .INT,
             some (.igram ⟨.singleton [⟨1, 4/5⟩, ⟨2, 7/10⟩], none⟩)⟩], 1⟩
          "b_num" (.ci x) ≤ (2/5 : ℚ) →
      multi_val_dispatch
          ⟨[⟨"b_num", 2/5, 1/2, some (.pInt 0), some (.pInt 10), some 2, .INT,
             some (.igram ⟨.singleton [⟨1, 4/5⟩, ⟨2, 7/10⟩], none⟩)⟩], 1⟩
          "b_num" .IN_LIST (.ints [x]) =
        get_equal_to_selectivity_v
          ⟨[⟨"b_num", 2/5, 1/2, some (.pInt 0), some (.pInt 10), some 2, .INT,
             some (.igram ⟨.singleton [⟨1, 4/5⟩, ⟨2, 7/10⟩], none⟩)⟩], 1⟩
          "b_num" (.ci x)) :=
  C4_amended
    ⟨[⟨"b_num", 2/5, 1/2, some (.pInt 0), some (.pInt 10), some 2, .INT,
       some (.igram ⟨.singleton [⟨1, 4/5⟩, ⟨2, 7/10⟩], none⟩)⟩], 1⟩
    "b_num"
    ⟨"b_num", 2/5, 1/2, some (.pInt 0), some (.pInt 10), some 2, .INT,
     some (.igram ⟨.singleton [⟨1, 4/5⟩, ⟨2, 7/10⟩], none⟩)⟩ rfl

/-- C8 (counterexample): a boolean bucket whose min and max differ and which
has no sub-histogram returns `0.5 * base` for all three estimates, so the
less-than estimate is not zero (bucket `f_bool`, frequency 2/5, no nulls:
lt = 1/5). -/
theorem C8_counterexample :
    (lookup_bucket_bool
        ⟨[⟨"f_bool", 2/5, 0, some (.pBool false), some (.pBool true), some 2, .BOOL,
           none⟩], 1⟩
        "f_bool" true).lt_frequency = 1/5 ∧
    (1/5 : ℚ) ≠ 0 := by
  constructor
  · show (2/5 : ℚ) * (1 - 0) * 0.5 = 1/5
    norm_num
  · norm_num

/-- C8 (amended): for a found boolean bucket the lookup returns lt = gt = 0
with eq taken from the matching value only when the min/max metadata agree
(`min == max`) or when a nonempty singleton boolean sub-histogram is
attached; otherwise (min ≠ max and no usable sub-histogram) all three
estimates are `0.5 * base`.  Moreover deserialisation does not reject an
equi-height boolean sub-histogram (final conjunct). -/
theorem C8_amended :
    (∀ (h : Json_flex) (p : String) (bucket : JsonBucket) (m cmp : Bool),
      find_bucket h p = some bucket →
      bucket.min_val = some (.pBool m) → bucket.max_val = some (.pBool m) →
      lookup_bucket_bool h p cmp =
        ⟨if m = cmp then bucket.frequency * (1 - bucket.null_values) else 0, 0, 0⟩) ∧
    (∀ (h : Json_flex) (p : String) (bucket : JsonBucket) (mn mx cmp : Bool)
       (f : SingleBucket Bool) (es : List (SingleBucket Bool)) (rest : Option ℚ),
      find_bucket h p = some bucket →
      bucket.min_val = some (.pBool mn) → bucket.max_val = some (.pBool mx) → mn ≠ mx →
      bucket.histogram = some (.bgram ⟨.singleton (f :: es), rest⟩) →
      lookup_bucket_bool h p cmp =
        ⟨(if f.value = cmp then f.frequency else 1 - f.frequency) *
           (bucket.frequency * (1 - bucket.null_values)), 0, 0⟩) ∧
    (∀ (h : Json_flex) (p : String) (bucket : JsonBucket) (mn mx cmp : Bool),
      find_bucket h p = some bucket →
      bucket.min_val = some (.pBool mn) → bucket.max_val = some (.pBool mx) → mn ≠ mx →
      bucket.histogram = none →
      lookup_bucket_bool h p cmp =
        ⟨bucket.frequency * (1 - bucket.null_values) * 0.5,
         bucket.frequency * (1 - bucket.null_values) * 0.5,
         bucket.frequency * (1 - bucket.null_values) * 0.5⟩) ∧
    (json_to_histogram (.jObject [("buckets", .jArray [.jArray
        [.jOpaque "b_bool", .jDouble (1/2), .jDouble 0, .jBool false, .jBool true,
         .jInt 2,
         .jObject [("type", .jString "equi-height"),
                   ("buckets", .jArray [.jArray [.jBool true, .jDouble 1, .jInt 2]])]]])]) =
      some [⟨"b_bool", 1/2, 0, some (.pBool false), some (.pBool true), some 2, .BOOL,
             some (.bgram ⟨.equiHeight [⟨true, 1, 2⟩], none⟩)⟩]) := by
  refine ⟨?_, ?_, ?_, ?_⟩
  · intro h p bucket m cmp hf hmin hmax
    simp only [lookup_bucket_bool, hf, lookup_found_bool, hmin, hmax, JsonPrim.getBool,
      if_pos rfl, if_true, eq_self_iff_true]
  · intro h p bucket mn mx cmp f es rest hf hmin hmax hne hhist
    simp only [lookup_bucket_bool, hf, lookup_found_bool, hmin, hmax, JsonPrim.getBool,
      hhist, hne, if_neg, ite_false]
  · intro h p bucket mn mx cmp hf hmin hmax hne hhist
    simp only [lookup_bucket_bool, hf, lookup_found_bool, hmin, hmax, JsonPrim.getBool,
      hhist, hne, if_neg, ite_false]
  · rfl

/-- C8 (amended, witness): the three lookup behaviours and the equi-height
acceptance, evaluated on concrete boolean buckets. -/
theorem C8_amended_witness :
    (lookup_bucket_bool
        ⟨[⟨"t_bool", 1/2, 0, some (.pBool true), some (.pBool true), some 1, .BOOL,
           none⟩], 1⟩ "t_bool" true =
      ⟨if true = true then (1/2 : ℚ) * (1 - 0) else 0, 0, 0⟩) ∧
    (lookup_bucket_bool
        ⟨[⟨"g_bool", 1/2, 0, some (.pBool false), some (.pBool true), some 2, .BOOL,
           some (.bgram ⟨.singleton [⟨true, 3/4⟩], none⟩)⟩], 1⟩ "g_bool" true =
      ⟨(if true = true then (3/4 : ℚ) else 1 - 3/4) * ((1/2 : ℚ) * (1 - 0)), 0, 0⟩) ∧
    (lookup_bucket_bool
        ⟨[⟨"f_bool2", 2/5, 0, some (.pBool false), some (.pBool true), some 2, .BOOL,
           none⟩], 1⟩ "f_bool2" true =
      ⟨(2/5 : ℚ) * (1 - 0) * 0.5, (2/5 : ℚ) * (1 - 0) * 0.5, (2/5 : ℚ) * (1 - 0) * 0.5⟩) :=
  ⟨C8_amended.1
      ⟨[⟨"t_bool", 1/2, 0, some (.pBool true), some (.pBool true), some 1, .BOOL, none⟩], 1⟩
      "t_bool"
      ⟨"t_bool", 1/2, 0, some (.pBool true), some (.pBool true), some 1, .BOOL, none⟩
      true true rfl rfl rfl,
   C8_amended.2.1
      ⟨[⟨"g_bool", 1/2, 0, some (.pBool false), some (.pBool true), some 2, .BOOL,
         some (.bgram ⟨.singleton [⟨true, 3/4⟩], none⟩)⟩], 1⟩
      "g_bool"
      ⟨"g_bool", 1/2, 0, some (.pBool false), some (.pBool true), some 2, .BOOL,
       some (.bgram ⟨.singleton [⟨true, 3/4⟩], none⟩)⟩
      false true true ⟨true, 3/4⟩ [] none rfl rfl rfl (by decide) rfl,
   C8_amended.2.2.1
      ⟨[⟨"f_bool2", 2/5, 0, some (.pBool false), some (.pBool true), some 2, .BOOL, none⟩], 1⟩
      "f_bool2"
      ⟨"f_bool2", 2/5, 0, some (.pBool false), some (.pBool true), some 2, .BOOL, none⟩
      false true true rfl rfl rfl (by decide) rfl⟩

/-- The value type a primitive carries. -/
def primTag : JsonPrim → BucketValueType
  | .pInt _ => .INT
  | .pFloat _ => .FLOAT
  | .pBool _ => .BOOL
  | .pString _ => .STRING

/-- The value type a typed gram carries. -/
def gramTag : TypedGram → BucketValueType
  | .igram _ => .INT
  | .fgram _ => .FLOAT
  | .bgram _ => .BOOL
  | .sgram _ => .STRING

/-- Structural well-formedness that `json_to_histogram` guarantees for every
bucket it produces: an UNKNOWN bucket has no optional data; a typed bucket
has min/max primitives of its own type, and any attached sub-histogram is of
its own type and accompanied by an `ndv`. -/
def wf_bucket (b : JsonBucket) : Prop :=
  if b.values_type = .UNKNOWN then
    b.min_val = none ∧ b.max_val = none ∧ b.ndv = none ∧ b.histogram = none
  else
    (∃ mn, b.min_val = some mn ∧ primTag mn = b.values_type) ∧
    (∃ mx, b.max_val = some mx ∧ primTag mx = b.values_type) ∧
    (b.histogram = none ∨
      ((∃ g, b.histogram = some g ∧ gramTag g = b.values_type) ∧ b.ndv ≠ none))

/-- Round trip of the int value codec. -/
theorem intCodec_rt (t : ℤ) : intCodec.ext (intCodec.ser t) = some t := rfl

/-- Round trip of the float value codec. -/
theorem floatCodec_rt (t : ℚ) : floatCodec.ext (floatCodec.ser t) = some t := rfl

/-- Round trip of the bool value codec. -/
theorem boolCodec_rt (t : Bool) : boolCodec.ext (boolCodec.ser t) = some t := rfl

/-- Round trip of the string value codec. -/
theorem strCodec_rt (t : String) : strCodec.ext (strCodec.ser t) = some t := rfl

/-- Parsing back a serialised singleton entry list recovers it. -/
theorem parseSingles_map {T : Type} (C : ValCodec T) (hC : ∀ t, C.ext (C.ser t) = some t) :
    ∀ es : List (SingleBucket T), parseSingles C (es.map (serSingle C)) = es := by
  intro es
  induction es with
  | nil => rfl
  | cons e es ih => simp [parseSingles, serSingle, hC, extractDouble, ih]

/-- Parsing back a serialised equi-height entry list recovers it. -/
theorem parseEquis_map {T : Type} (C : ValCodec T) (hC : ∀ t, C.ext (C.ser t) = some t) :
    ∀ es : List (EquiBucket T), parseEquis C (es.map (serEqui C)) = es := by
  intro es
  induction es with
  | nil => rfl
  | cons e es ih => simp [parseEquis, serEqui, hC, extractDouble, extractInt, ih]

/-- Parsing back a serialised typed gram recovers it. -/
theorem parse_gram_rt (g : TypedGram) :
    parse_gram (gramTag g) (typedGram_json g) = some g := by
  rcases g with ⟨bk, r⟩ | ⟨bk, r⟩ | ⟨bk, r⟩ | ⟨bk, r⟩ <;>
    rcases bk with es | es <;>
    rcases r with - | r <;>
    simp [typedGram_json, gramTag, parse_gram, gram_object, objGet, mkGram,
      TypedGram.setRest, parseSingles_map intCodec intCodec_rt,
      parseSingles_map floatCodec floatCodec_rt,
      parseSingles_map boolCodec boolCodec_rt,
      parseSingles_map strCodec strCodec_rt,
      parseEquis_map intCodec intCodec_rt,
      parseEquis_map floatCodec floatCodec_rt,
      parseEquis_map boolCodec boolCodec_rt,
      parseEquis_map strCodec strCodec_rt]

/-- The primitives produced by `parse_minmax` carry the value type it
reports, which is never UNKNOWN. -/
theorem parse_minmax_tags {mn mx : JsonDom} {a b : JsonPrim} {vt : BucketValueType}
    (h : parse_minmax mn mx = some (a, b, vt)) :
    primTag a = vt ∧ primTag b = vt ∧ vt ≠ .UNKNOWN := by
  cases mn <;> cases mx <;>
    simp only [parse_minmax, Option.some.injEq, Prod.mk.injEq, reduceCtorEq] at h <;>
    obtain ⟨ha, hb, hvt⟩ := h <;> subst ha <;> subst hb <;> subst hvt <;>
    simp [primTag]

/-- `TypedGram.setRest` does not change the value type of a gram. -/
theorem gramTag_setRest (g : TypedGram) (r : ℚ) : gramTag (g.setRest r) = gramTag g := by
  cases g <;> rfl

/-- The gram produced by `parse_gram` carries the requested value type. -/
theorem parse_gram_tag {vt : BucketValueType} {dom : JsonDom} {g : TypedGram}
    (h : parse_gram vt dom = some g) : gramTag g = vt := by
  cases vt <;> simp only [parse_gram] at h <;> repeat' split at h
  all_goals try simp only [reduceCtorEq] at h
  all_goals simp only [Option.some.injEq] at h
  all_goals subst h
  all_goals simp [TypedGram.setRest, gramTag]

/-- Specialisation of `parse_gram_rt` to int grams. -/
theorem parse_gram_rt_int (g : JsonGram ℤ) :
    parse_gram .INT (typedGram_json (.igram g)) = some (.igram g) := parse_gram_rt (.igram g)

/-- Specialisation of `parse_gram_rt` to float grams. -/
theorem parse_gram_rt_float (g : JsonGram ℚ) :
    parse_gram .FLOAT (typedGram_json (.fgram g)) = some (.fgram g) := parse_gram_rt (.fgram g)

/-- Specialisation of `parse_gram_rt` to bool grams. -/
theorem parse_gram_rt_bool (g : JsonGram Bool) :
    parse_gram .BOOL (typedGram_json (.bgram g)) = some (.bgram g) := parse_gram_rt (.bgram g)

/-- Specialisation of `parse_gram_rt` to string grams. -/
theorem parse_gram_rt_string (g : JsonGram String) :
    parse_gram .STRING (typedGram_json (.sgram g)) = some (.sgram g) := parse_gram_rt (.sgram g)

/-- Every bucket produced by `parse_bucket` is well-formed. -/
theorem parse_bucket_wf {dom : JsonDom} {b : JsonBucket}
    (hp : parse_bucket dom = some b) : wf_bucket b := by
  rcases dom with i | i | q | bb | st | op | cells | fl <;>
    simp only [parse_bucket, reduceCtorEq] at hp
  split at hp
  · exact absurd hp (by simp)
  split at hp
  case _ =>
    split at hp
    · -- five or more cells: min and max are present
      split at hp
      case _ =>
        split at hp
        case _ =>
          rename_i mn mx vt heqm
          obtain ⟨hmn, hmx, hne⟩ := parse_minmax_tags heqm
          split at hp
          · -- six or more cells: ndv present
            split at hp
            case _ =>
              split at hp
              · -- seven or more cells: sub-histogram present
                split at hp
                case _ =>
                  rename_i g heqg
                  simp only [Option.some.injEq] at hp
                  subst hp
                  obtain ⟨gdom, hgd, hpg⟩ := Option.bind_eq_some.mp heqg
                  have hgt := parse_gram_tag hpg
                  simp only [wf_bucket]
                  rw [if_neg hne]
                  exact ⟨⟨mn, rfl, hmn⟩, ⟨mx, rfl, hmx⟩,
                    Or.inr ⟨⟨g, rfl, hgt⟩, by simp⟩⟩
                case _ => exact absurd hp (by simp)
              · simp only [Option.some.injEq] at hp
                subst hp
                simp only [wf_bucket]
                rw [if_neg hne]
                exact ⟨⟨mn, rfl, hmn⟩, ⟨mx, rfl, hmx⟩, Or.inl (by trivial)⟩
            case _ => exact absurd hp (by simp)
          · simp only [Option.some.injEq] at hp
            subst hp
            simp only [wf_bucket]
            rw [if_neg hne]
            exact ⟨⟨mn, rfl, hmn⟩, ⟨mx, rfl, hmx⟩, Or.inl (by trivial)⟩
        case _ => exact absurd hp (by simp)
      case _ => exact absurd hp (by simp)
    · -- fewer than five cells: an UNKNOWN bucket with no optional data
      simp only [Option.some.injEq] at hp
      subst hp
      simp [wf_bucket]
  case _ => exact absurd hp (by simp)

/-- Serialising a well-formed bucket and parsing it back recovers it. -/
theorem parse_bucket_create (b : JsonBucket) (hwf : wf_bucket b) :
    parse_bucket (.jArray (create_json_bucket b)) = some b := by
  obtain ⟨k, f, nv, mno, mxo, ndvo, vt, histo⟩ := b
  cases vt
  case UNKNOWN =>
    obtain ⟨h1, h2, h3, h4⟩ := hwf
    subst h1; subst h2; subst h3; subst h4
    simp [create_json_bucket, parse_bucket, extractString, extractDouble]
  case INT =>
    obtain ⟨⟨mn, hmn, hmnt⟩, ⟨mx, hmx, hmxt⟩, hh⟩ := hwf
    subst hmn; subst hmx
    dsimp only at hmnt hmxt
    cases mn <;> try (simp only [primTag, reduceCtorEq] at hmnt)
    cases mx <;> try (simp only [primTag, reduceCtorEq] at hmxt)
    rcases hh with hh | ⟨⟨g, hg, hgt⟩, hndv⟩
    · subst hh
      rcases ndvo with - | n <;>
        simp [create_json_bucket, minmax_json, JsonPrim.getInt, parse_bucket,
          extractString, extractDouble, extractInt, parse_minmax]
    · subst hg
      dsimp only at hgt
      cases g <;> try (simp only [gramTag, reduceCtorEq] at hgt)
      rcases ndvo with - | n
      · exact absurd rfl hndv
      · simp [create_json_bucket, minmax_json, JsonPrim.getInt, parse_bucket,
          extractString, extractDouble, extractInt, parse_minmax, parse_gram_rt_int]
  case FLOAT =>
    obtain ⟨⟨mn, hmn, hmnt⟩, ⟨mx, hmx, hmxt⟩, hh⟩ := hwf
    subst hmn; subst hmx
    dsimp only at hmnt hmxt
    cases mn <;> try (simp only [primTag, reduceCtorEq] at hmnt)
    cases mx <;> try (simp only [primTag, reduceCtorEq] at hmxt)
    rcases hh with hh | ⟨⟨g, hg, hgt⟩, hndv⟩
    · subst hh
      rcases ndvo with - | n <;>
        simp [create_json_bucket, minmax_json, JsonPrim.getFloat, parse_bucket,
          extractString, extractDouble, extractInt, parse_minmax]
    · subst hg
      dsimp only at hgt
      cases g <;> try (simp only [gramTag, reduceCtorEq] at hgt)
      rcases ndvo with - | n
      · exact absurd rfl hndv
      · simp [create_json_bucket, minmax_json, JsonPrim.getFloat, parse_bucket,
          extractString, extractDouble, extractInt, parse_minmax, parse_gram_rt_float]
  case BOOL =>
    obtain ⟨⟨mn, hmn, hmnt⟩, ⟨mx, hmx, hmxt⟩, hh⟩ := hwf
    subst hmn; subst hmx
    dsimp only at hmnt hmxt
    cases mn <;> try (simp only [primTag, reduceCtorEq] at hmnt)
    cases mx <;> try (simp only [primTag, reduceCtorEq] at hmxt)
    rcases hh with hh | ⟨⟨g, hg, hgt⟩, hndv⟩
    · subst hh
      rcases ndvo with - | n <;>
        simp [create_json_bucket, minmax_json, JsonPrim.getBool, parse_bucket,
          extractString, extractDouble, extractInt, parse_minmax]
    · subst hg
      dsimp only at hgt
      cases g <;> try (simp only [gramTag, reduceCtorEq] at hgt)
      rcases ndvo with - | n
      · exact absurd rfl hndv
      · simp [create_json_bucket, minmax_json, JsonPrim.getBool, parse_bucket,
          extractString, extractDouble, extractInt, parse_minmax, parse_gram_rt_bool]
  case STRING =>
    obtain ⟨⟨mn, hmn, hmnt⟩, ⟨mx, hmx, hmxt⟩, hh⟩ := hwf
    subst hmn; subst hmx
    dsimp only at hmnt hmxt
    cases mn <;> try (simp only [primTag, reduceCtorEq] at hmnt)
    cases mx <;> try (simp only [primTag, reduceCtorEq] at hmxt)
    rcases hh with hh | ⟨⟨g, hg, hgt⟩, hndv⟩
    · subst hh
      rcases ndvo with - | n <;>
        simp [create_json_bucket, minmax_json, JsonPrim.getStr, parse_bucket,
          extractString, extractDouble, extractInt, parse_minmax]
    · subst hg
      dsimp only at hgt
      cases g <;> try (simp only [gramTag, reduceCtorEq] at hgt)
      rcases ndvo with - | n
      · exact absurd rfl hndv
      · simp [create_json_bucket, minmax_json, JsonPrim.getStr, parse_bucket,
          extractString, extractDouble, extractInt, parse_minmax, parse_gram_rt_string]

/-- Every bucket in a successfully parsed bucket array is well-formed. -/
theorem parse_buckets_wf :
    ∀ (ds : List JsonDom) (bs : List JsonBucket), parse_buckets ds = some bs →
      ∀ b ∈ bs, wf_bucket b := by
  intro ds
  induction ds with
  | nil =>
    intro bs hp b hb
    simp only [parse_buckets, Option.some.injEq] at hp
    subst hp
    cases hb
  | cons d rest ih =>
    intro bs hp b hb
    simp only [parse_buckets] at hp
    rcases hd : parse_bucket d with - | b0 <;> rw [hd] at hp
    · simp at hp
    rcases hr : parse_buckets rest with - | bs0 <;> rw [hr] at hp
    · simp at hp
    simp only [Option.map_some', Option.some.injEq] at hp
    subst hp
    rcases hb with - | hb
    · exact parse_bucket_wf hd
    · exact ih bs0 hr b (by assumption)

/-- Serialising a list of well-formed buckets and parsing it back recovers
the list. -/
theorem parse_buckets_create (bs : List JsonBucket) (hwf : ∀ b ∈ bs, wf_bucket b) :
    parse_buckets (bs.map (fun b => .jArray (create_json_bucket b))) = some bs := by
  induction bs with
  | nil => rfl
  | cons b bs ih =>
    simp only [List.map_cons, parse_buckets,
      parse_bucket_create b (hwf b (by simp)),
      ih (fun x hx => hwf x (by simp [hx])), Option.map_some']

/-- C5: a histogram loaded by `json_to_histogram` from a JSON object,
serialised back with `histogram_to_json`, reloads to the identical bucket
array: same buckets in the same order with identical key paths, frequencies,
null fractions, min/max values of every supported type, ndv, and
sub-histogram contents including `rest_mean_frequency`. -/
theorem C5_roundtrip (dom : JsonDom) (bs : List JsonBucket)
    (hload : json_to_histogram dom = some bs) :
    json_to_histogram (histogram_to_json bs) = some bs := by
  have hwf : ∀ b ∈ bs, wf_bucket b := by
    rcases dom with i | i | q | bb | st | op | cells | fl <;>
      simp only [json_to_histogram, reduceCtorEq] at hload
    rcases hg : objGet fl "buckets" with - | bdom <;> rw [hg] at hload
    · simp at hload
    rcases bdom <;> simp only [reduceCtorEq] at hload
    exact parse_buckets_wf _ _ hload
  have hfind : objGet
      [("buckets", JsonDom.jArray (bs.map (fun b => .jArray (create_json_bucket b))))]
      "buckets" =
      some (.jArray (bs.map (fun b => .jArray (create_json_bucket b)))) := rfl
  simp only [histogram_to_json, json_to_histogram, hfind]
  exact parse_buckets_create bs hwf

/-- C5 (witness): the round trip evaluated on a concrete serialised
histogram with an UNKNOWN bucket, an int bucket carrying a singleton
sub-histogram with `rest_frequency`, a float bucket with an equi-height
sub-histogram, a string bucket, and a bool bucket. -/
theorem C5_roundtrip_witness :
    json_to_histogram (histogram_to_json
      [⟨"plain", 7/10, 1/10, none, none, none, .UNKNOWN, none⟩,
       ⟨"a_num", 2/5, 0, some (.pInt 0), some (.pInt 3), some 4, .INT,
        some (.igram ⟨.singleton [⟨0, 1/4⟩, ⟨1, 1/4⟩], some (1/10)⟩)⟩,
       ⟨"f_num", 1/5, 0, some (.pFloat 0), some (.pFloat 1), some 2, .FLOAT,
        some (.fgram ⟨.equiHeight [⟨1/2, 1/2, 1⟩, ⟨1, 1/2, 1⟩], none⟩)⟩,
       ⟨"aakey_str", 131/1000, 0, some (.pString "bb"), some (.pString "bb"), some 1,
        .STRING, none⟩,
       ⟨"b_bool", 1/2, 0, some (.pBool false), some (.pBool true), some 2, .BOOL,
        some (.bgram ⟨.singleton [⟨true, 3/4⟩], none⟩)⟩]) =
    some
      [⟨"plain", 7/10, 1/10, none, none, none, .UNKNOWN, none⟩,
       ⟨"a_num", 2/5, 0, some (.pInt 0), some (.pInt 3), some 4, .INT,
        some (.igram ⟨.singleton [⟨0, 1/4⟩, ⟨1, 1/4⟩], some (1/10)⟩)⟩,
       ⟨"f_num", 1/5, 0, some (.pFloat 0), some (.pFloat 1), some 2, .FLOAT,
        some (.fgram ⟨.equiHeight [⟨1/2, 1/2, 1⟩, ⟨1, 1/2, 1⟩], none⟩)⟩,
       ⟨"aakey_str", 131/1000, 0, some (.pString "bb"), some (.pString "bb"), some 1,
        .STRING, none⟩,
       ⟨"b_bool", 1/2, 0, some (.pBool false), some (.pBool true), some 2, .BOOL,
        some (.bgram ⟨.singleton [⟨true, 3/4⟩], none⟩)⟩] :=
  C5_roundtrip
    (histogram_to_json
      [⟨"plain", 7/10, 1/10, none, none, none, .UNKNOWN, none⟩,
       ⟨"a_num", 2/5, 0, some (.pInt 0), some (.pInt 3), some 4, .INT,
        some (.igram ⟨.singleton [⟨0, 1/4⟩, ⟨1, 1/4⟩], some (1/10)⟩)⟩,
       ⟨"f_num", 1/5, 0, some (.pFloat 0), some (.pFloat 1), some 2, .FLOAT,
        some (.fgram ⟨.equiHeight [⟨1/2, 1/2, 1⟩, ⟨1, 1/2, 1⟩], none⟩)⟩,
       ⟨"aakey_str", 131/1000, 0, some (.pString "bb"), some (.pString "bb"), some 1,
        .STRING, none⟩,
       ⟨"b_bool", 1/2, 0, some (.pBool false), some (.pBool true), some 2, .BOOL,
        some (.bgram ⟨.singleton [⟨true, 3/4⟩], none⟩)⟩])
    [⟨"plain", 7/10, 1/10, none, none, none, .UNKNOWN, none⟩,
     ⟨"a_num", 2/5, 0, some (.pInt 0), some (.pInt 3), some 4, .INT,
      some (.igram ⟨.singleton [⟨0, 1/4⟩, ⟨1, 1/4⟩], some (1/10)⟩)⟩,
     ⟨"f_num", 1/5, 0, some (.pFloat 0), some (.pFloat 1), some 2, .FLOAT,
      some (.fgram ⟨.equiHeight [⟨1/2, 1/2, 1⟩, ⟨1, 1/2, 1⟩], none⟩)⟩,
     ⟨"aakey_str", 131/1000, 0, some (.pString "bb"), some (.pString "bb"), some 1,
      .STRING, none⟩,
     ⟨"b_bool", 1/2, 0, some (.pBool false), some (.pBool true), some 2, .BOOL,
      some (.bgram ⟨.singleton [⟨true, 3/4⟩], none⟩)⟩]
    rfl

end JsonFlex
